import Mathlib

/-!
# disgo-wrapper: permissions, channels, client, cache options, listener adapter

A shallow embedding of `core/caches.go` (`GetMemberPermissions`,
`GetMemberPermissionsInChannel`, `MemberRoles`), of the parts of
`discord/channel.go` they call (`getPermissionOverwrite`,
`RolePermissionOverwrite`, `MemberPermissionOverwrite`) and of its channel
types and decoding (`ChannelType`, `Type()`, `UnmarshalChannel.UnmarshalJSON`),
and encoding (`MarshalJSON`), of the subsystem methods of `bot/client.go`, of
the options of `core/cache_config.go`, of `ListenerAdapter.OnEvent` of
`events/listener_adapter.go` and of `GetOS` of `api/disgo.go`.

Conventions.
* A Go function that can panic returns `Option`; `none` is the panic.
* A Go pointer result that may be `nil` is an inner `Option`.
* `discord.Permissions` is a 64-bit integer; a value is represented by its
  bit pattern, a natural number below `2 ^ 64`, and `x - 1` wraps.
* A method that calls a subsystem returns a `Run`: the error it returns and the
  calls it made, in order.
-/

namespace Disgo

/-! ## Data model -/

/-- Snowflake ids are only ever compared for equality here. -/
abbrev Snowflake := Nat

/-- Bit pattern of a `discord.Permissions` value (64 bits). -/
abbrev Permissions := Nat

/-- An instant, as used by `Member.CommunicationDisabledUntil` (seconds on some clock). -/
abbrev Time := Nat

/-- Modelled from the spec: `Permissions.Add` (package `discord`, file not among the
sources) with one argument; the spec says the role permissions are OR-ed in. -/
def Permissions.Add (p bits : Permissions) : Permissions := p ||| bits

/-- Modelled from the spec: `Permissions.Has` (package `discord`, file not among the
sources) with one argument: every bit of `bit` is set in `p`. -/
def Permissions.Has (p bit : Permissions) : Bool := (p &&& bit) == bit

/-- Go's `x - 1` on a 64-bit integer, on bit patterns: `0 - 1` is all ones. -/
def subOne (x : Permissions) : Permissions := (x + (2 ^ 64 - 1)) % 2 ^ 64

/-- The permission constants of package `discord` that `caches.go` refers to. Their
declarations are not among the sources, so they are parameters of the model. -/
structure PermissionConsts where
  PermissionAdministrator : Permissions
  PermissionViewChannel : Permissions
  PermissionReadMessageHistory : Permissions
  PermissionsAll : Permissions
  PermissionsNone : Permissions
deriving DecidableEq, Repr

/-- The mask `PermissionViewChannel | PermissionReadMessageHistory` of a timed out member. -/
def PermissionConsts.timeoutMask (K : PermissionConsts) : Permissions :=
  K.PermissionViewChannel ||| K.PermissionReadMessageHistory

/-- The fields of `discord.User` read by the permission code. -/
structure User where
  ID : Snowflake
deriving DecidableEq, Repr

/-- The fields of `discord.Member` read by the permission code. -/
structure Member where
  User : Disgo.User
  GuildID : Snowflake
  RoleIDs : List Snowflake
  CommunicationDisabledUntil : Option Time
deriving DecidableEq, Repr

/-- The fields of `discord.Guild` read by the permission code. -/
structure Guild where
  ID : Snowflake
  OwnerID : Snowflake
deriving DecidableEq, Repr

/-- The fields of `discord.Role` read by the permission code. -/
structure Role where
  ID : Snowflake
  Permissions : Disgo.Permissions
deriving DecidableEq, Repr

/-- The two kinds of permission overwrite. -/
inductive PermissionOverwriteType where
  | PermissionOverwriteTypeRole
  | PermissionOverwriteTypeMember
deriving DecidableEq, Repr

/-- A role overwrite of a channel. -/
structure RolePermissionOverwrite where
  RoleID : Snowflake
  Allow : Permissions
  Deny : Permissions
deriving DecidableEq, Repr

/-- A member overwrite of a channel. -/
structure MemberPermissionOverwrite where
  UserID : Snowflake
  Allow : Permissions
  Deny : Permissions
deriving DecidableEq, Repr

/-- The interface `discord.PermissionOverwrite` with its two implementations. The
dynamic type of a stored role (member) overwrite is taken to be the pointer type
that `RolePermissionOverwrite` (`MemberPermissionOverwrite`) asserts. -/
inductive PermissionOverwrite where
  | role (o : RolePermissionOverwrite)
  | member (o : MemberPermissionOverwrite)
deriving DecidableEq, Repr

/-- The method `Type()` of a permission overwrite. -/
def PermissionOverwrite.Type : PermissionOverwrite → PermissionOverwriteType
  | .role _ => .PermissionOverwriteTypeRole
  | .member _ => .PermissionOverwriteTypeMember

/-- The method `ID()` of a permission overwrite. -/
def PermissionOverwrite.ID : PermissionOverwrite → Snowflake
  | .role o => o.RoleID
  | .member o => o.UserID

/-- A guild channel that carries permission overwrites (`GuildTextChannel`,
`GuildVoiceChannel`, `GuildCategoryChannel`, `GuildNewsChannel`: their overwrite
methods are the same code), reduced to the fields the permission code reads. -/
structure GuildChannel where
  ChannelID : Snowflake
  ChannelGuildID : Snowflake
  ChannelPermissionOverwrites : List PermissionOverwrite
deriving DecidableEq, Repr

/-- The method `GuildID()`. -/
def GuildChannel.GuildID (c : GuildChannel) : Snowflake := c.ChannelGuildID

/-- The method `PermissionOverwrites()`. -/
def GuildChannel.PermissionOverwrites (c : GuildChannel) : List PermissionOverwrite :=
  c.ChannelPermissionOverwrites

/-- The loop of `getPermissionOverwrite`: the first overwrite whose type and id
both match, `none` (the nil interface) when the list is exhausted. -/
def getPermissionOverwriteLoop (overwriteType : PermissionOverwriteType) (id : Snowflake) :
    List PermissionOverwrite → Option PermissionOverwrite
  | [] => none
  | overwrite :: rest =>
    if overwrite.Type = overwriteType ∧ overwrite.ID = id then some overwrite
    else getPermissionOverwriteLoop overwriteType id rest

/-- `getPermissionOverwrite` of `channel.go`. -/
def getPermissionOverwrite (channel : GuildChannel) (overwriteType : PermissionOverwriteType)
    (id : Snowflake) : Option PermissionOverwrite :=
  getPermissionOverwriteLoop overwriteType id channel.PermissionOverwrites

/-- `RolePermissionOverwrite(id)`: the result of `getPermissionOverwrite` goes through
the single-value type assertion `.(*RolePermissionOverwrite)`, which panics (outer
`none`) on the nil interface and on any other dynamic type. -/
def GuildChannel.RolePermissionOverwrite (c : GuildChannel) (id : Snowflake) :
    Option (Option Disgo.RolePermissionOverwrite) :=
  match getPermissionOverwrite c .PermissionOverwriteTypeRole id with
  | some (.role o) => some (some o)
  | some (.member _) => none
  | none => none

/-- `MemberPermissionOverwrite(id)`: as `RolePermissionOverwrite`, with the assertion
`.(*MemberPermissionOverwrite)`. -/
def GuildChannel.MemberPermissionOverwrite (c : GuildChannel) (id : Snowflake) :
    Option (Option Disgo.MemberPermissionOverwrite) :=
  match getPermissionOverwrite c .PermissionOverwriteTypeMember id with
  | some (.member o) => some (some o)
  | some (.role _) => none
  | none => none

/-! ## Caches -/

/-- Modelled from the spec: `core.Cache[T]` (not among the sources), an in-memory
store keyed by object id. -/
abbrev Cache (T : Type) := List (Snowflake × T)

/-- Modelled from the spec: `Cache.Get`, the entry stored under `id`, if any. -/
def Cache.Get {T : Type} : Cache T → Snowflake → Option T
  | [], _ => none
  | (k, v) :: rest, id => if k = id then some v else Cache.Get rest id

/-- An entry of a grouped cache: the key `(groupID, id)` and the stored value. -/
structure GroupedEntry (T : Type) where
  groupID : Snowflake
  id : Snowflake
  value : T
deriving DecidableEq, Repr

/-- Modelled from the spec: `core.GroupedCache[T]` (not among the sources), a store
keyed by `(parentID, id)`. The list order stands for the iteration order. -/
abbrev GroupedCache (T : Type) := List (GroupedEntry T)

/-- Modelled from the spec: `GroupedCache.Get`, the entry stored under `(groupID, id)`. -/
def GroupedCache.Get {T : Type} : GroupedCache T → Snowflake → Snowflake → Option T
  | [], _, _ => none
  | e :: rest, groupID, id =>
    if e.groupID = groupID ∧ e.id = id then some e.value else GroupedCache.Get rest groupID id

/-- Modelled from the spec: `GroupedCache.FindAll`, every stored value on which the
predicate (given the group id and the value) holds. -/
def GroupedCache.FindAll {T : Type} (c : GroupedCache T) (f : Snowflake → T → Bool) : List T :=
  (c.filter (fun e => f e.groupID e.value)).map (fun e => e.value)

/-- Modelled from the spec: `core.ChannelCache` (not among the sources), reduced to
its guild channels: `GetGuildChannel(id)` is the cached guild channel with that id. -/
structure ChannelCache where
  guildChannels : Cache GuildChannel
deriving DecidableEq, Repr

/-- Modelled from the spec: `ChannelCache.GetGuildChannel`. -/
def ChannelCache.GetGuildChannel (c : ChannelCache) (id : Snowflake) : Option GuildChannel :=
  Cache.Get c.guildChannels id

/-- The caches of `cachesImpl` that the permission code reads. -/
structure Caches where
  guildCache : Cache Guild
  roleCache : GroupedCache Role
  channelCache : ChannelCache
deriving DecidableEq, Repr

/-- The accessor `Guilds()`. -/
def Caches.Guilds (c : Caches) : Cache Guild := c.guildCache

/-- The accessor `Roles()`. -/
def Caches.Roles (c : Caches) : GroupedCache Role := c.roleCache

/-- The accessor `Channels()`. -/
def Caches.Channels (c : Caches) : ChannelCache := c.channelCache

/-! ## `caches.go` -/

/-- The inner loop of the `MemberRoles` predicate: does `id` occur in `roleIDs`. -/
def roleIDsContain (id : Snowflake) : List Snowflake → Bool
  | [] => false
  | roleID :: rest => if roleID = id then true else roleIDsContain id rest

/-- `cachesImpl.MemberRoles`. -/
def Caches.MemberRoles (c : Caches) (member : Member) : List Role :=
  GroupedCache.FindAll c.Roles (fun groupID role =>
    if groupID ≠ member.GuildID then false
    else roleIDsContain role.ID member.RoleIDs)

/-- The test `guild, ok := c.Guilds().Get(guildID); ok && guild.OwnerID == userID`
that opens both permission functions. -/
def Caches.isOwner (c : Caches) (guildID userID : Snowflake) : Bool :=
  match Cache.Get c.Guilds guildID with
  | some guild => guild.OwnerID == userID
  | none => false

/-- The role loop of `GetMemberPermissions` (lines 82 to 87): `none` when the loop
leaves the function with `PermissionsAll`, else the permissions after the loop. -/
def memberRolesLoop (K : PermissionConsts) : Permissions → List Role → Option Permissions
  | permissions, [] => some permissions
  | permissions, role :: rest =>
    let permissions := Permissions.Add permissions role.Permissions
    if Permissions.Has permissions K.PermissionAdministrator then none
    else memberRolesLoop K permissions rest

/-- The permissions of the public role, `c.Roles().Get(guildID, guildID)`, zero when
it is not cached (lines 77 to 80). -/
def Caches.publicRolePermissions (c : Caches) (guildID : Snowflake) : Permissions :=
  match GroupedCache.Get c.Roles guildID guildID with
  | some publicRole => publicRole.Permissions
  | none => 0

/-- `cachesImpl.GetMemberPermissions`. -/
def Caches.GetMemberPermissions (K : PermissionConsts) (c : Caches) (member : Member) :
    Permissions :=
  if c.isOwner member.GuildID member.User.ID then K.PermissionsAll
  else
    match memberRolesLoop K (c.publicRolePermissions member.GuildID) (c.MemberRoles member) with
    | none => K.PermissionsAll
    | some permissions =>
      if member.CommunicationDisabledUntil.isSome then permissions &&& K.timeoutMask
      else permissions

/-- The role-overwrite loop of `GetMemberPermissionsInChannel` (lines 122 to 133),
returning `(allowRole, denyRole)`; `none` when `RolePermissionOverwrite` panics. -/
def roleOverwritesLoop (channel : GuildChannel) :
    List Snowflake → Permissions → Permissions → Option (Permissions × Permissions)
  | [], allowRole, denyRole => some (allowRole, denyRole)
  | roleID :: rest, allowRole, denyRole =>
    if roleID = channel.GuildID then roleOverwritesLoop channel rest allowRole denyRole
    else
      match channel.RolePermissionOverwrite roleID with
      | none => none
      | some none => some (allowRole, denyRole)
      | some (some overwrite) =>
        roleOverwritesLoop channel rest
          (Permissions.Add allowRole overwrite.Allow) (Permissions.Add denyRole overwrite.Deny)

/-- Lines 109 to 149 of `GetMemberPermissionsInChannel`: the overwrites of `channel`
applied to `permissions`, then the timeout mask. -/
def applyChannelOverwrites (K : PermissionConsts) (channel : GuildChannel) (member : Member)
    (permissions : Permissions) : Option Permissions :=
  match channel.RolePermissionOverwrite channel.GuildID with
  | none => none
  | some publicOverwrite =>
    let allowRaw : Permissions := match publicOverwrite with | some o => o.Allow | none => 0
    let denyRaw : Permissions := match publicOverwrite with | some o => o.Deny | none => 0
    match roleOverwritesLoop channel member.RoleIDs 0 0 with
    | none => none
    | some (allowRole, denyRole) =>
      let allowRaw := (allowRaw &&& subOne denyRole) ||| allowRole
      let denyRaw := (denyRaw &&& subOne allowRole) ||| denyRole
      match channel.MemberPermissionOverwrite member.User.ID with
      | none => none
      | some memberOverwrite =>
        let allowRaw2 : Permissions := match memberOverwrite with
          | some o => (allowRaw &&& subOne o.Deny) ||| o.Allow
          | none => allowRaw
        let denyRaw2 : Permissions := match memberOverwrite with
          | some o => (denyRaw &&& subOne o.Allow) ||| o.Deny
          | none => denyRaw
        let permissions := permissions &&& subOne denyRaw2
        let permissions := permissions ||| allowRaw2
        if member.CommunicationDisabledUntil.isSome then some (permissions &&& K.timeoutMask)
        else some permissions

/-- `cachesImpl.GetMemberPermissionsInChannel`; `none` is a panic. -/
def Caches.GetMemberPermissionsInChannel (K : PermissionConsts) (c : Caches)
    (channelID : Snowflake) (member : Member) : Option Permissions :=
  match c.Channels.GetGuildChannel channelID with
  | none => some K.PermissionsNone
  | some channel =>
    if c.isOwner channel.GuildID member.User.ID then some K.PermissionsAll
    else
      let permissions := c.GetMemberPermissions K member
      if Permissions.Has permissions K.PermissionAdministrator then some K.PermissionsAll
      else applyChannelOverwrites K channel member permissions

/-! ## `channel.go`: channel types -/

/-- `ChannelType` is a Go `int`. -/
abbrev ChannelType := Int

/-- First constant of the `iota` block. -/
def ChannelTypeGuildText : ChannelType := 0
/-- Second constant of the `iota` block. -/
def ChannelTypeDM : ChannelType := 1
/-- Third constant of the `iota` block. -/
def ChannelTypeGuildVoice : ChannelType := 2
/-- Fourth constant of the `iota` block. -/
def ChannelTypeGroupDM : ChannelType := 3
/-- Fifth constant of the `iota` block. -/
def ChannelTypeGuildCategory : ChannelType := 4
/-- Sixth constant of the `iota` block; four blank entries follow it. -/
def ChannelTypeGuildNews : ChannelType := 5
/-- Eleventh constant of the `iota` block. -/
def ChannelTypeGuildNewsThread : ChannelType := 10
/-- Twelfth constant of the `iota` block. -/
def ChannelTypeGuildPublicThread : ChannelType := 11
/-- Thirteenth constant of the `iota` block. -/
def ChannelTypeGuildPrivateThread : ChannelType := 12
/-- Fourteenth constant of the `iota` block. -/
def ChannelTypeGuildStageVoice : ChannelType := 13

/-- The struct `DMChannel`. -/
structure DMChannel where
  ChannelID : Snowflake
  LastMessageID : Option Snowflake
  Recipients : List User
  LastPinTimestamp : Option Time
deriving DecidableEq, Repr

/-- `DMChannel.Type` (lines 280 to 282). -/
def DMChannel.Type (_c : DMChannel) : ChannelType := ChannelTypeGuildText

/-! ## Specification-side definitions -/

/-- The permissions of the public role OR-ed with the permissions of every role of
`MemberRoles(member)`: steps (2) and (3) of the spec's permission computation. -/
def Caches.combinedRolePermissions (c : Caches) (member : Member) : Permissions :=
  (c.MemberRoles member).foldl (fun acc role => acc ||| role.Permissions)
    (c.publicRolePermissions member.GuildID)

/-- The plain overwrite step of the spec, `(base & ~deny) | allow`, on 64-bit patterns. -/
def plainOverwrite (base allow deny : Permissions) : Permissions :=
  (base &&& ((2 ^ 64 - 1) ^^^ (deny % 2 ^ 64))) ||| allow

/-- The allow masks of the role overwrites of `channel` for the ids in `roleIDs`, OR-ed. -/
def unionRoleAllow (channel : GuildChannel) (roleIDs : List Snowflake) : Permissions :=
  (channel.PermissionOverwrites.filterMap (fun o =>
    match o with
    | .role r => if r.RoleID ∈ roleIDs ∧ r.RoleID ≠ channel.GuildID then some r.Allow else none
    | .member _ => none)).foldl (fun acc a => acc ||| a) 0

/-- The deny masks of the role overwrites of `channel` for the ids in `roleIDs`, OR-ed. -/
def unionRoleDeny (channel : GuildChannel) (roleIDs : List Snowflake) : Permissions :=
  (channel.PermissionOverwrites.filterMap (fun o =>
    match o with
    | .role r => if r.RoleID ∈ roleIDs ∧ r.RoleID ≠ channel.GuildID then some r.Deny else none
    | .member _ => none)).foldl (fun acc a => acc ||| a) 0

/-- The spec's form of the channel permissions of a member that is neither owner nor
administrator nor timed out: the public overwrite, then the union of the role
overwrites, then the member overwrite, each as `(p & ~deny) | allow`. -/
def plainPermissionsInChannel (channel : GuildChannel) (member : Member)
    (p : Permissions) : Permissions :=
  let p1 := match getPermissionOverwrite channel .PermissionOverwriteTypeRole channel.GuildID with
    | some (.role o) => plainOverwrite p o.Allow o.Deny
    | _ => p
  let p2 := plainOverwrite p1 (unionRoleAllow channel member.RoleIDs)
    (unionRoleDeny channel member.RoleIDs)
  match getPermissionOverwrite channel .PermissionOverwriteTypeMember member.User.ID with
  | some (.member o) => plainOverwrite p2 o.Allow o.Deny
  | _ => p2

/-- The member with `CommunicationDisabledUntil` replaced. -/
def Member.withTimeout (m : Member) (t : Option Time) : Member :=
  { m with CommunicationDisabledUntil := t }

/-! ## Sample data for concrete evaluations -/

/-- A sample assignment of the permission constants: the bits are the platform's
(`ADMINISTRATOR = 1 << 3`, `VIEW_CHANNEL = 1 << 10`, `READ_MESSAGE_HISTORY = 1 << 16`),
`PermissionsAll` is taken as the bits 0 to 40. -/
def sampleConsts : PermissionConsts :=
  { PermissionAdministrator := 8, PermissionViewChannel := 1024,
    PermissionReadMessageHistory := 65536, PermissionsAll := 2 ^ 41 - 1,
    PermissionsNone := 0 }

/-- The platform's `SEND_MESSAGES` bit, `1 << 11`. -/
def sampleSendMessages : Permissions := 2048

/-- Guild 1, owned by user 9. -/
def sampleGuild : Guild := { ID := 1, OwnerID := 9 }

/-- The public role of guild 1: view channel, send messages, read message history. -/
def samplePublicRole : Role := { ID := 1, Permissions := 1024 ||| 2048 ||| 65536 }

/-- A cache holding guild 1, the given roles of guild 1 and the given channel under id 50. -/
def sampleCaches (roles : List Role) (channel : GuildChannel) : Caches :=
  { guildCache := [(1, sampleGuild)],
    roleCache := roles.map (fun r => { groupID := 1, id := r.ID, value := r }),
    channelCache := { guildChannels := [(50, channel)] } }

/-- Channel 50 of guild 1 with the given overwrites. -/
def sampleChannel (overwrites : List PermissionOverwrite) : GuildChannel :=
  { ChannelID := 50, ChannelGuildID := 1, ChannelPermissionOverwrites := overwrites }

/-- User 2 as a member of guild 1 with the given role ids and timeout. -/
def sampleMember (roleIDs : List Snowflake) (t : Option Time) : Member :=
  { User := { ID := 2 }, GuildID := 1, RoleIDs := roleIDs, CommunicationDisabledUntil := t }

/-- User 9, the owner, as a member of guild 1, timed out and without roles. -/
def sampleOwner : Member :=
  { User := { ID := 9 }, GuildID := 1, RoleIDs := [], CommunicationDisabledUntil := some 7 }

/-- Role 5 of guild 1, granting send messages. -/
def sampleSendRole : Role := { ID := 5, Permissions := 2048 }

/-- Role 5 of guild 1, granting ban members (`1 << 2`). -/
def sampleBanRole : Role := { ID := 5, Permissions := 4 }

/-- A public role of guild 1 that grants only view channel. -/
def sampleViewOnlyRole : Role := { ID := 1, Permissions := 1024 }

/-- A public role of guild 1 that grants only administrator. -/
def sampleAdminPublicRole : Role := { ID := 1, Permissions := 8 }

/-- Channel 50 with an empty public overwrite and an empty overwrite for user 2. -/
def neutralChannel : GuildChannel :=
  sampleChannel [.role ⟨1, 0, 0⟩, .member ⟨2, 0, 0⟩]

/-- Channel 50 with an empty public overwrite and a member overwrite for user 2 that
denies send messages. -/
def denySendChannel : GuildChannel :=
  sampleChannel [.role ⟨1, 0, 0⟩, .member ⟨2, 0, 2048⟩]

/-- Channel 50 with an empty public overwrite and a member overwrite for user 2 that
denies view channel and send messages. -/
def denyTwoChannel : GuildChannel :=
  sampleChannel [.role ⟨1, 0, 0⟩, .member ⟨2, 0, 1024 ||| 2048⟩]

/-- Channel 50 whose only overwrite lets role 5 send messages. -/
def roleGrantChannel : GuildChannel :=
  sampleChannel [.role ⟨5, 2048, 0⟩]

/-- Channel 50 with empty public and member overwrites and an overwrite that lets
role 6 send messages; role 5 has no overwrite. -/
def secondRoleChannel : GuildChannel :=
  sampleChannel [.role ⟨1, 0, 0⟩, .role ⟨6, 2048, 0⟩, .member ⟨2, 0, 0⟩]

/-- Channel 50 whose only overwrite lets user 2 send messages. -/
def memberAllowChannel : GuildChannel :=
  sampleChannel [.member ⟨2, 2048, 0⟩]

/-- A direct-message channel. -/
def sampleDMChannel : DMChannel :=
  { ChannelID := 70, LastMessageID := none, Recipients := [{ ID := 2 }],
    LastPinTimestamp := none }

/-! ## Errors -/

/-- Go `error` values. Modelled from the spec: the sentinel errors of package `discord`
(their declarations are not among the sources) are the configuration errors of the
spec's error taxonomy, each its own value; `errorf` is a value built by `fmt.Errorf`,
`other` any further error (transport, JSON, cancellation). -/
inductive GoError where
  | ErrNoGateway
  | ErrNoShardManager
  | ErrShardNotFound
  | ErrNoGatewayOrShardManager
  | ErrNoHTTPServer
  | errorf (format : String) (arg : Int)
  | other (code : Nat)
deriving DecidableEq, Repr

/-! ## `channel.go`: decoding a channel -/

/-- The fields of a guild channel struct that `ID()`, `GuildID()` and `Name()` read. -/
structure ChannelFields where
  ChannelID : Snowflake
  ChannelGuildID : Snowflake
  ChannelName : String
deriving DecidableEq, Repr

/-- A value of the interface `Channel`: one constructor for each of the nine structs
that `UnmarshalChannel.UnmarshalJSON` can produce. -/
inductive Channel where
  | GuildTextChannel (v : ChannelFields)
  | DMChannel (v : Disgo.DMChannel)
  | GuildVoiceChannel (v : ChannelFields)
  | GuildCategoryChannel (v : ChannelFields)
  | GuildNewsChannel (v : ChannelFields)
  | GuildNewsThread (v : ChannelFields)
  | GuildPublicThread (v : ChannelFields)
  | GuildPrivateThread (v : ChannelFields)
  | GuildStageVoiceChannel (v : ChannelFields)
deriving DecidableEq, Repr

/-- The method `Type()` of each channel struct, as written at lines 215, 280, 352, 438,
532, 612, 680, 748 and 830. -/
def Channel.Type : Channel → ChannelType
  | .GuildTextChannel _ => ChannelTypeGuildText
  | .DMChannel v => v.Type
  | .GuildVoiceChannel _ => ChannelTypeGuildText
  | .GuildCategoryChannel _ => ChannelTypeGuildCategory
  | .GuildNewsChannel _ => ChannelTypeGuildNews
  | .GuildNewsThread _ => ChannelTypeGuildNewsThread
  | .GuildPublicThread _ => ChannelTypeGuildPublicThread
  | .GuildPrivateThread _ => ChannelTypeGuildPrivateThread
  | .GuildStageVoiceChannel _ => ChannelTypeGuildStageVoice

/-- The method `ID()` of each channel struct. -/
def Channel.ID : Channel → Snowflake
  | .GuildTextChannel v => v.ChannelID
  | .DMChannel v => v.ChannelID
  | .GuildVoiceChannel v => v.ChannelID
  | .GuildCategoryChannel v => v.ChannelID
  | .GuildNewsChannel v => v.ChannelID
  | .GuildNewsThread v => v.ChannelID
  | .GuildPublicThread v => v.ChannelID
  | .GuildPrivateThread v => v.ChannelID
  | .GuildStageVoiceChannel v => v.ChannelID

/-- The method `Name()` of each channel struct; a `DMChannel` has the empty name. -/
def Channel.Name : Channel → String
  | .GuildTextChannel v => v.ChannelName
  | .DMChannel _ => ""
  | .GuildVoiceChannel v => v.ChannelName
  | .GuildCategoryChannel v => v.ChannelName
  | .GuildNewsChannel v => v.ChannelName
  | .GuildNewsThread v => v.ChannelName
  | .GuildPublicThread v => v.ChannelName
  | .GuildPrivateThread v => v.ChannelName
  | .GuildStageVoiceChannel v => v.ChannelName

/-- The outcome of one `json.Unmarshal(data, &v)`: the decoded value or the error. -/
inductive Unmarshal (α : Type) where
  | ok (v : α)
  | fail (err : GoError)
deriving DecidableEq, Repr

/-- The names of the eight guild channel structs. -/
inductive GuildStruct where
  | GuildTextChannel
  | GuildVoiceChannel
  | GuildCategoryChannel
  | GuildNewsChannel
  | GuildNewsThread
  | GuildPublicThread
  | GuildPrivateThread
  | GuildStageVoiceChannel
deriving DecidableEq, Repr

/-- A payload `data []byte`, seen through `json.Unmarshal` (a library function, taken
as a parameter): what decoding it gives for the type tag, for each guild channel
struct and for `DMChannel`. -/
structure ChannelPayload where
  decodeType : Unmarshal ChannelType
  decodeGuild : GuildStruct → Unmarshal ChannelFields
  decodeDM : Unmarshal DMChannel

/-- The struct `UnmarshalChannel`: the embedded `Channel`, `none` while it is nil. -/
structure UnmarshalChannel where
  Channel : Option Disgo.Channel
deriving DecidableEq, Repr

/-- One arm of the switch of `UnmarshalJSON` for a guild struct: decode into `v`, then
`channel = v`. -/
def decodeGuildArm (data : ChannelPayload) (s : GuildStruct) (mk : ChannelFields → Channel) :
    Unmarshal Channel :=
  match data.decodeGuild s with
  | .ok v => .ok (mk v)
  | .fail err => .fail err

/-- The switch of `UnmarshalChannel.UnmarshalJSON` (lines 98 to 146) on the decoded tag. -/
def unmarshalChannelSwitch (data : ChannelPayload) (t : ChannelType) : Unmarshal Channel :=
  if t = ChannelTypeGuildText then decodeGuildArm data .GuildTextChannel .GuildTextChannel
  else if t = ChannelTypeDM then
    match data.decodeDM with
    | .ok v => .ok (.DMChannel v)
    | .fail err => .fail err
  else if t = ChannelTypeGuildVoice then decodeGuildArm data .GuildVoiceChannel .GuildVoiceChannel
  else if t = ChannelTypeGuildCategory then
    decodeGuildArm data .GuildCategoryChannel .GuildCategoryChannel
  else if t = ChannelTypeGuildNews then decodeGuildArm data .GuildNewsChannel .GuildNewsChannel
  else if t = ChannelTypeGuildNewsThread then
    decodeGuildArm data .GuildNewsThread .GuildNewsThread
  else if t = ChannelTypeGuildPublicThread then
    decodeGuildArm data .GuildPublicThread .GuildPublicThread
  else if t = ChannelTypeGuildPrivateThread then
    decodeGuildArm data .GuildPrivateThread .GuildPrivateThread
  else if t = ChannelTypeGuildStageVoice then
    decodeGuildArm data .GuildStageVoiceChannel .GuildStageVoiceChannel
  else .fail (.errorf "unkown channel with type %d received" t)

/-- `UnmarshalChannel.UnmarshalJSON`: the receiver after the call and the returned error. -/
def UnmarshalChannel.UnmarshalJSON (u : UnmarshalChannel) (data : ChannelPayload) :
    UnmarshalChannel × Option GoError :=
  match data.decodeType with
  | .fail err => (u, some err)
  | .ok t =>
    match unmarshalChannelSwitch data t with
    | .fail err => (u, some err)
    | .ok channel => ({ u with Channel := some channel }, none)

/-! ## `bot/client.go` -/

/-- A `context.Context`, opaque. -/
abbrev Context := Nat

/-- Gateway opcodes are integers. -/
abbrev Opcode := Int

/-- Modelled from the spec: `gateway.OpcodePresenceUpdate` (declaration not among the
sources); the spec lists opcode 3 as PresenceUpdate. -/
def OpcodePresenceUpdate : Opcode := 3

/-- Modelled from the spec: `gateway.OpcodeVoiceStateUpdate` (declaration not among the
sources); the spec lists opcode 4 as VoiceStateUpdate. -/
def OpcodeVoiceStateUpdate : Opcode := 4

/-- Modelled from the spec: `gateway.OpcodeRequestGuildMembers` (declaration not among
the sources); the spec lists opcode 8 as RequestGuildMembers. -/
def OpcodeRequestGuildMembers : Opcode := 8

/-- The fields of `gateway.MessageDataVoiceStateUpdate` that `client.go` sets. -/
structure MessageDataVoiceStateUpdate where
  GuildID : Snowflake
  ChannelID : Option Snowflake
deriving DecidableEq, Repr

/-- The fields of `gateway.MessageDataRequestGuildMembers` that `client.go` sets; a
field left out of the composite literal has its zero value (`none`, `[]`). -/
structure MessageDataRequestGuildMembers where
  GuildID : Snowflake
  Query : Option String
  Limit : Option Int
  Presences : Bool
  UserIDs : List Snowflake
  Nonce : String
deriving DecidableEq, Repr

/-- A `gateway.MessageDataPresenceUpdate`, passed through unchanged. -/
structure MessageDataPresenceUpdate where
  token : Nat
deriving DecidableEq, Repr

/-- The payload argument of `Send`. -/
inductive MessageData where
  | VoiceStateUpdate (d : MessageDataVoiceStateUpdate)
  | RequestGuildMembers (d : MessageDataRequestGuildMembers)
  | PresenceUpdate (d : MessageDataPresenceUpdate)
deriving DecidableEq, Repr

/-- A call that a client method makes on one of its subsystems. Gateways (sessions)
are named by their identity. -/
inductive Call where
  | gatewayOpen (gateway : Nat) (ctx : Context)
  | gatewaySend (gateway : Nat) (ctx : Context) (op : Opcode) (d : MessageData)
  | shardManagerOpen (ctx : Context)
  | httpServerStart
deriving DecidableEq, Repr

/-- A non-nil `gateway.Gateway`: its identity and what its `Open` and `Send` return
(`none` is the nil error). -/
structure Gateway where
  id : Nat
  openResult : Context → Option GoError
  sendResult : Context → Opcode → MessageData → Option GoError

/-- A non-nil `sharding.ShardManager`: the session that owns a guild and the session
with a given shard id, each `none` when the manager returns nil. -/
structure ShardManager where
  ShardByGuildID : Snowflake → Option Gateway
  Shard : Int → Option Gateway

/-- A non-nil `httpserver.Server`. -/
structure HTTPServer where
  address : String
deriving DecidableEq, Repr

/-- A non-nil `rest.Rest`. -/
structure Rest where
  token : Nat
deriving DecidableEq, Repr

/-- The fields of `clientImpl` that hold subsystems; `none` is nil. -/
structure clientImpl where
  restServices : Option Rest
  shardManager : Option ShardManager
  gateway : Option Gateway
  httpServer : Option HTTPServer

/-- What a client method did: the error it returned (`none` is nil) and the calls it
made on subsystems, in order. -/
structure Run where
  err : Option GoError
  calls : List Call
deriving DecidableEq, Repr

/-- The call `g.Open(ctx)` as the last statement of a method. -/
def Gateway.Open (g : Gateway) (ctx : Context) : Run :=
  { err := g.openResult ctx, calls := [.gatewayOpen g.id ctx] }

/-- The call `g.Send(ctx, op, d)` as the last statement of a method. -/
def Gateway.Send (g : Gateway) (ctx : Context) (op : Opcode) (d : MessageData) : Run :=
  { err := g.sendResult ctx op d, calls := [.gatewaySend g.id ctx op d] }

/-- `clientImpl.HasGateway`. -/
def clientImpl.HasGateway (c : clientImpl) : Bool := c.gateway.isSome

/-- `clientImpl.HasShardManager`. -/
def clientImpl.HasShardManager (c : clientImpl) : Bool := c.shardManager.isSome

/-- `clientImpl.HasHTTPServer`. -/
def clientImpl.HasHTTPServer (c : clientImpl) : Bool := c.httpServer.isSome

/-- `clientImpl.ConnectGateway`. -/
def clientImpl.ConnectGateway (c : clientImpl) (ctx : Context) : Run :=
  match c.gateway with
  | none => { err := some .ErrNoGateway, calls := [] }
  | some gateway => gateway.Open ctx

/-- `clientImpl.ConnectShardManager`: `Open` of the shard manager returns nothing. -/
def clientImpl.ConnectShardManager (c : clientImpl) (ctx : Context) : Run :=
  match c.shardManager with
  | none => { err := some .ErrNoShardManager, calls := [] }
  | some _ => { err := none, calls := [.shardManagerOpen ctx] }

/-- `clientImpl.Shard`: the pair `(gateway.Gateway, error)` it returns. -/
def clientImpl.Shard (c : clientImpl) (guildID : Snowflake) : Option Gateway × Option GoError :=
  if c.HasGateway then (c.gateway, none)
  else
    match c.shardManager with
    | some shardManager =>
      match shardManager.ShardByGuildID guildID with
      | some shard => (some shard, none)
      | none => (none, some .ErrShardNotFound)
    | none => (none, some .ErrNoGatewayOrShardManager)

/-- The common shape of `Connect`, `Disconnect`, `RequestMembers` and
`RequestMembersWithQuery`: `shard, err := c.Shard(guildID)`, return `err` if it is not
nil, else `shard.Send(ctx, op, d)`. The outer `none` is the panic of a method call on
a nil `shard`. -/
def clientImpl.sendToShard (c : clientImpl) (ctx : Context) (guildID : Snowflake) (op : Opcode)
    (d : MessageData) : Option Run :=
  match c.Shard guildID with
  | (_, some err) => some { err := some err, calls := [] }
  | (some shard, none) => some (shard.Send ctx op d)
  | (none, none) => none

/-- `clientImpl.Connect`. -/
def clientImpl.Connect (c : clientImpl) (ctx : Context) (guildID channelID : Snowflake) :
    Option Run :=
  c.sendToShard ctx guildID OpcodeVoiceStateUpdate
    (.VoiceStateUpdate { GuildID := guildID, ChannelID := some channelID })

/-- `clientImpl.Disconnect`. -/
def clientImpl.Disconnect (c : clientImpl) (ctx : Context) (guildID : Snowflake) : Option Run :=
  c.sendToShard ctx guildID OpcodeVoiceStateUpdate
    (.VoiceStateUpdate { GuildID := guildID, ChannelID := none })

/-- `clientImpl.RequestMembers`; `userIDs` is the variadic argument. -/
def clientImpl.RequestMembers (c : clientImpl) (ctx : Context) (guildID : Snowflake)
    (presence : Bool) (nonce : String) (userIDs : List Snowflake) : Option Run :=
  c.sendToShard ctx guildID OpcodeRequestGuildMembers
    (.RequestGuildMembers
      { GuildID := guildID, Query := none, Limit := none,
        Presences := presence, UserIDs := userIDs, Nonce := nonce })

/-- `clientImpl.RequestMembersWithQuery`. -/
def clientImpl.RequestMembersWithQuery (c : clientImpl) (ctx : Context) (guildID : Snowflake)
    (presence : Bool) (nonce : String) (query : String) (limit : Int) : Option Run :=
  c.sendToShard ctx guildID OpcodeRequestGuildMembers
    (.RequestGuildMembers
      { GuildID := guildID, Query := some query, Limit := some limit,
        Presences := presence, UserIDs := [], Nonce := nonce })

/-- `clientImpl.SetPresence`. -/
def clientImpl.SetPresence (c : clientImpl) (ctx : Context)
    (presenceUpdate : MessageDataPresenceUpdate) : Run :=
  match c.gateway with
  | none => { err := some .ErrNoGateway, calls := [] }
  | some gateway => gateway.Send ctx OpcodePresenceUpdate (.PresenceUpdate presenceUpdate)

/-- `clientImpl.SetPresenceForShard`. -/
def clientImpl.SetPresenceForShard (c : clientImpl) (ctx : Context) (shardId : Int)
    (presenceUpdate : MessageDataPresenceUpdate) : Run :=
  match c.shardManager with
  | none => { err := some .ErrNoShardManager, calls := [] }
  | some shardManager =>
    match shardManager.Shard shardId with
    | none => { err := some .ErrShardNotFound, calls := [] }
    | some shard => shard.Send ctx OpcodePresenceUpdate (.PresenceUpdate presenceUpdate)

/-- `clientImpl.StartHTTPServer`: `Start` of the server returns nothing. -/
def clientImpl.StartHTTPServer (c : clientImpl) : Run :=
  match c.httpServer with
  | none => { err := some .ErrNoHTTPServer, calls := [] }
  | some _ => { err := none, calls := [.httpServerStart] }

/-! ## `core/cache_config.go` -/

/-- A set of cache flags, as a bit pattern. -/
abbrev CacheFlags := Nat

/-- Modelled from the spec: `CacheFlags.Add` (declaration not among the sources) with
one argument; the flags are a bitmask and adding a flag sets its bits. -/
def CacheFlags.Add (f bits : CacheFlags) : CacheFlags := f ||| bits

/-- The fields of `discord.Message` that a cache policy could read, opaque here. -/
structure Message where
  ID : Snowflake
deriving DecidableEq, Repr

/-- Modelled from the spec: `CachePolicy[T]` (declaration not among the sources), a
predicate that decides whether to retain an incoming value. -/
abbrev CachePolicy (T : Type) := T → Bool

/-- The struct `CacheConfig`. -/
structure CacheConfig where
  CacheFlags : Disgo.CacheFlags
  MemberCachePolicy : CachePolicy Member
  MessageCachePolicy : CachePolicy Message

/-- `CacheConfigOpt`, a function that updates the config it is given. -/
abbrev CacheConfigOpt := CacheConfig → CacheConfig

/-- The loop of `WithCacheFlags`: `flags = flags.Add(flag)` for each argument in turn. -/
def withCacheFlagsLoop : CacheFlags → List CacheFlags → CacheFlags
  | flags, [] => flags
  | flags, flag :: rest => withCacheFlagsLoop (CacheFlags.Add flags flag) rest

/-- `WithCacheFlags`; `cacheFlags` is the variadic argument. -/
def WithCacheFlags (cacheFlags : List CacheFlags) : CacheConfigOpt :=
  fun config => { config with CacheFlags := withCacheFlagsLoop 0 cacheFlags }

/-- `WithMemberCachePolicy`. -/
def WithMemberCachePolicy (memberCachePolicy : CachePolicy Member) : CacheConfigOpt :=
  fun config => { config with MemberCachePolicy := memberCachePolicy }

/-- `WithMessageCachePolicy`. -/
def WithMessageCachePolicy (messageCachePolicy : CachePolicy Message) : CacheConfigOpt :=
  fun config => { config with MessageCachePolicy := messageCachePolicy }

/-! ## `events/listener_adapter.go` -/

/-- The dynamic type of an event: the pointer types that the type switch of `OnEvent`
names, in the order of its cases, and `Other` for every other dynamic type. -/
inductive EventType where
  | Heartbeat
  | HTTPRequest
  | Raw
  | GuildApplicationCommandPermissionsUpdate
  | ThreadCreate
  | ThreadUpdate
  | ThreadDelete
  | ThreadShow
  | ThreadHide
  | ThreadMemberAdd
  | ThreadMemberUpdate
  | ThreadMemberRemove
  | GuildChannelCreate
  | GuildChannelUpdate
  | GuildChannelDelete
  | GuildChannelPinsUpdate
  | DMChannelCreate
  | DMChannelUpdate
  | DMChannelDelete
  | DMChannelPinsUpdate
  | DMMessageCreate
  | DMMessageUpdate
  | DMMessageDelete
  | DMMessageReactionAdd
  | DMMessageReactionRemove
  | DMMessageReactionRemoveEmoji
  | DMMessageReactionRemoveAll
  | EmojisUpdate
  | EmojiCreate
  | EmojiUpdate
  | EmojiDelete
  | StickersUpdate
  | StickerCreate
  | StickerUpdate
  | StickerDelete
  | Ready
  | Resumed
  | InvalidSession
  | Disconnected
  | GuildJoin
  | GuildUpdate
  | GuildLeave
  | GuildAvailable
  | GuildUnavailable
  | GuildReady
  | GuildsReady
  | GuildBan
  | GuildUnban
  | InviteCreate
  | InviteDelete
  | GuildMemberJoin
  | GuildMemberUpdate
  | GuildMemberLeave
  | GuildMessageCreate
  | GuildMessageUpdate
  | GuildMessageDelete
  | GuildMessageReactionAdd
  | GuildMessageReactionRemove
  | GuildMessageReactionRemoveEmoji
  | GuildMessageReactionRemoveAll
  | VoiceServerUpdate
  | GuildVoiceStateUpdate
  | GuildVoiceJoin
  | GuildVoiceMove
  | GuildVoiceLeave
  | StageInstanceCreate
  | StageInstanceUpdate
  | StageInstanceDelete
  | RoleCreate
  | RoleUpdate
  | RoleDelete
  | GuildScheduledEventCreate
  | GuildScheduledEventUpdate
  | GuildScheduledEventDelete
  | GuildScheduledEventUserAdd
  | GuildScheduledEventUserRemove
  | InteractionCreate
  | ApplicationCommandInteractionCreate
  | ComponentInteractionCreate
  | AutocompleteInteractionCreate
  | ModalSubmitInteractionCreate
  | MessageCreate
  | MessageUpdate
  | MessageDelete
  | MessageReactionAdd
  | MessageReactionRemove
  | MessageReactionRemoveEmoji
  | MessageReactionRemoveAll
  | SelfUpdate
  | UserUpdate
  | UserTypingStart
  | GuildMemberTypingStart
  | DMUserTypingStart
  | UserActivityStart
  | UserActivityUpdate
  | UserActivityStop
  | UserStatusUpdate
  | UserClientStatusUpdate
  | IntegrationCreate
  | IntegrationUpdate
  | IntegrationDelete
  | GuildIntegrationsUpdate
  | WebhooksUpdate
  | Other
deriving DecidableEq, Repr

/-- The handler fields of the struct `ListenerAdapter`, in the order of declaration. -/
inductive HandlerField where
  | OnHeartbeat
  | OnHTTPRequest
  | OnRaw
  | OnGuildApplicationCommandPermissionsUpdate
  | OnThreadCreate
  | OnThreadUpdate
  | OnThreadDelete
  | OnThreadShow
  | OnThreadHide
  | OnThreadMemberAdd
  | OnThreadMemberUpdate
  | OnThreadMemberRemove
  | OnGuildChannelCreate
  | OnGuildChannelUpdate
  | OnGuildChannelDelete
  | OnGuildChannelPinsUpdate
  | OnDMChannelCreate
  | OnDMChannelUpdate
  | OnDMChannelDelete
  | OnDMChannelPinsUpdate
  | OnDMMessageCreate
  | OnDMMessageUpdate
  | OnDMMessageDelete
  | OnDMMessageReactionAdd
  | OnDMMessageReactionRemove
  | OnDMMessageReactionRemoveEmoji
  | OnDMMessageReactionRemoveAll
  | OnEmojisUpdate
  | OnEmojiCreate
  | OnEmojiUpdate
  | OnEmojiDelete
  | OnStickersUpdate
  | OnStickerCreate
  | OnStickerUpdate
  | OnStickerDelete
  | OnReady
  | OnResumed
  | OnInvalidSession
  | OnDisconnected
  | OnGuildJoin
  | OnGuildUpdate
  | OnGuildLeave
  | OnGuildAvailable
  | OnGuildUnavailable
  | OnGuildReady
  | OnGuildsReady
  | OnGuildBan
  | OnGuildUnban
  | OnGuildInviteCreate
  | OnGuildInviteDelete
  | OnGuildMemberJoin
  | OnGuildMemberUpdate
  | OnGuildMemberLeave
  | OnGuildMessageCreate
  | OnGuildMessageUpdate
  | OnGuildMessageDelete
  | OnGuildMessageReactionAdd
  | OnGuildMessageReactionRemove
  | OnGuildMessageReactionRemoveEmoji
  | OnGuildMessageReactionRemoveAll
  | OnVoiceServerUpdate
  | OnGuildVoiceStateUpdate
  | OnGuildVoiceJoin
  | OnGuildVoiceMove
  | OnGuildVoiceLeave
  | OnStageInstanceCreate
  | OnStageInstanceUpdate
  | OnStageInstanceDelete
  | OnRoleCreate
  | OnRoleUpdate
  | OnRoleDelete
  | OnGuildScheduledEventCreate
  | OnGuildScheduledEventUpdate
  | OnGuildScheduledEventDelete
  | OnGuildScheduledEventUserAdd
  | OnGuildScheduledEventUserRemove
  | OnInteraction
  | OnApplicationCommandInteraction
  | OnComponentInteraction
  | OnAutocompleteInteraction
  | OnModalSubmit
  | OnMessageCreate
  | OnMessageUpdate
  | OnMessageDelete
  | OnMessageReactionAdd
  | OnMessageReactionRemove
  | OnMessageReactionRemoveEmoji
  | OnMessageReactionRemoveAll
  | OnSelfUpdate
  | OnUserUpdate
  | OnUserTypingStart
  | OnGuildMemberTypingStart
  | OnDMUserTypingStart
  | OnUserActivityStart
  | OnUserActivityUpdate
  | OnUserActivityStop
  | OnUserStatusUpdate
  | OnUserClientStatusUpdate
  | OnIntegrationCreate
  | OnIntegrationUpdate
  | OnIntegrationDelete
  | OnGuildIntegrationsUpdate
  | OnGuildWebhooksUpdate
deriving DecidableEq, Repr

/-- The event type that the function type of each handler field takes (lines 11 to 167). -/
def HandlerField.eventType : HandlerField → EventType
  | .OnHeartbeat => .Heartbeat
  | .OnHTTPRequest => .HTTPRequest
  | .OnRaw => .Raw
  | .OnGuildApplicationCommandPermissionsUpdate => .GuildApplicationCommandPermissionsUpdate
  | .OnThreadCreate => .ThreadCreate
  | .OnThreadUpdate => .ThreadUpdate
  | .OnThreadDelete => .ThreadDelete
  | .OnThreadShow => .ThreadShow
  | .OnThreadHide => .ThreadHide
  | .OnThreadMemberAdd => .ThreadMemberAdd
  | .OnThreadMemberUpdate => .ThreadMemberUpdate
  | .OnThreadMemberRemove => .ThreadMemberRemove
  | .OnGuildChannelCreate => .GuildChannelCreate
  | .OnGuildChannelUpdate => .GuildChannelUpdate
  | .OnGuildChannelDelete => .GuildChannelDelete
  | .OnGuildChannelPinsUpdate => .GuildChannelPinsUpdate
  | .OnDMChannelCreate => .DMChannelCreate
  | .OnDMChannelUpdate => .DMChannelUpdate
  | .OnDMChannelDelete => .DMChannelDelete
  | .OnDMChannelPinsUpdate => .DMChannelPinsUpdate
  | .OnDMMessageCreate => .DMMessageCreate
  | .OnDMMessageUpdate => .DMMessageUpdate
  | .OnDMMessageDelete => .DMMessageDelete
  | .OnDMMessageReactionAdd => .DMMessageReactionAdd
  | .OnDMMessageReactionRemove => .DMMessageReactionRemove
  | .OnDMMessageReactionRemoveEmoji => .DMMessageReactionRemoveEmoji
  | .OnDMMessageReactionRemoveAll => .DMMessageReactionRemoveAll
  | .OnEmojisUpdate => .EmojisUpdate
  | .OnEmojiCreate => .EmojiCreate
  | .OnEmojiUpdate => .EmojiUpdate
  | .OnEmojiDelete => .EmojiDelete
  | .OnStickersUpdate => .StickersUpdate
  | .OnStickerCreate => .StickerCreate
  | .OnStickerUpdate => .StickerUpdate
  | .OnStickerDelete => .StickerDelete
  | .OnReady => .Ready
  | .OnResumed => .Resumed
  | .OnInvalidSession => .InvalidSession
  | .OnDisconnected => .Disconnected
  | .OnGuildJoin => .GuildJoin
  | .OnGuildUpdate => .GuildUpdate
  | .OnGuildLeave => .GuildLeave
  | .OnGuildAvailable => .GuildAvailable
  | .OnGuildUnavailable => .GuildUnavailable
  | .OnGuildReady => .GuildReady
  | .OnGuildsReady => .GuildsReady
  | .OnGuildBan => .GuildBan
  | .OnGuildUnban => .GuildUnban
  | .OnGuildInviteCreate => .InviteCreate
  | .OnGuildInviteDelete => .InviteDelete
  | .OnGuildMemberJoin => .GuildMemberJoin
  | .OnGuildMemberUpdate => .GuildMemberUpdate
  | .OnGuildMemberLeave => .GuildMemberLeave
  | .OnGuildMessageCreate => .GuildMessageCreate
  | .OnGuildMessageUpdate => .GuildMessageUpdate
  | .OnGuildMessageDelete => .GuildMessageDelete
  | .OnGuildMessageReactionAdd => .GuildMessageReactionAdd
  | .OnGuildMessageReactionRemove => .GuildMessageReactionRemove
  | .OnGuildMessageReactionRemoveEmoji => .GuildMessageReactionRemoveEmoji
  | .OnGuildMessageReactionRemoveAll => .GuildMessageReactionRemoveAll
  | .OnVoiceServerUpdate => .VoiceServerUpdate
  | .OnGuildVoiceStateUpdate => .GuildVoiceStateUpdate
  | .OnGuildVoiceJoin => .GuildVoiceJoin
  | .OnGuildVoiceMove => .GuildVoiceMove
  | .OnGuildVoiceLeave => .GuildVoiceLeave
  | .OnStageInstanceCreate => .StageInstanceCreate
  | .OnStageInstanceUpdate => .StageInstanceUpdate
  | .OnStageInstanceDelete => .StageInstanceDelete
  | .OnRoleCreate => .RoleCreate
  | .OnRoleUpdate => .RoleUpdate
  | .OnRoleDelete => .RoleDelete
  | .OnGuildScheduledEventCreate => .GuildScheduledEventCreate
  | .OnGuildScheduledEventUpdate => .GuildScheduledEventUpdate
  | .OnGuildScheduledEventDelete => .GuildScheduledEventDelete
  | .OnGuildScheduledEventUserAdd => .GuildScheduledEventUserAdd
  | .OnGuildScheduledEventUserRemove => .GuildScheduledEventUserRemove
  | .OnInteraction => .InteractionCreate
  | .OnApplicationCommandInteraction => .ApplicationCommandInteractionCreate
  | .OnComponentInteraction => .ComponentInteractionCreate
  | .OnAutocompleteInteraction => .AutocompleteInteractionCreate
  | .OnModalSubmit => .ModalSubmitInteractionCreate
  | .OnMessageCreate => .MessageCreate
  | .OnMessageUpdate => .MessageUpdate
  | .OnMessageDelete => .MessageDelete
  | .OnMessageReactionAdd => .MessageReactionAdd
  | .OnMessageReactionRemove => .MessageReactionRemove
  | .OnMessageReactionRemoveEmoji => .MessageReactionRemoveEmoji
  | .OnMessageReactionRemoveAll => .MessageReactionRemoveAll
  | .OnSelfUpdate => .SelfUpdate
  | .OnUserUpdate => .UserUpdate
  | .OnUserTypingStart => .UserTypingStart
  | .OnGuildMemberTypingStart => .GuildMemberTypingStart
  | .OnDMUserTypingStart => .DMUserTypingStart
  | .OnUserActivityStart => .UserActivityStart
  | .OnUserActivityUpdate => .UserActivityUpdate
  | .OnUserActivityStop => .UserActivityStop
  | .OnUserStatusUpdate => .UserStatusUpdate
  | .OnUserClientStatusUpdate => .UserClientStatusUpdate
  | .OnIntegrationCreate => .IntegrationCreate
  | .OnIntegrationUpdate => .IntegrationUpdate
  | .OnIntegrationDelete => .IntegrationDelete
  | .OnGuildIntegrationsUpdate => .GuildIntegrationsUpdate
  | .OnGuildWebhooksUpdate => .WebhooksUpdate

/-- An event: its dynamic type and its content, opaque. -/
structure Event where
  type : EventType
  content : Nat
deriving DecidableEq, Repr

/-- A `ListenerAdapter`: for each handler field whether it is set (not nil). -/
abbrev ListenerAdapter := HandlerField → Bool

/-- What `OnEvent` does: a call of a handler field with an event, or the error log of
the default case. -/
inductive Effect where
  | call (field : HandlerField) (event : Event)
  | logError (event : Event)
deriving DecidableEq, Repr

/-- The body of every case of the switch: `if listener := l.field; listener != nil
{ listener(e) }`. -/
def callIfSet (l : ListenerAdapter) (field : HandlerField) (e : Event) : List Effect :=
  if l field then [.call field e] else []

/-- `ListenerAdapter.OnEvent` (lines 170 to 642): the effects of one call, in order. -/
def ListenerAdapter.OnEvent (l : ListenerAdapter) (event : Event) : List Effect :=
  match event.type with
  | .Heartbeat => callIfSet l .OnHeartbeat event
  | .HTTPRequest => callIfSet l .OnHTTPRequest event
  | .Raw => callIfSet l .OnRaw event
  | .GuildApplicationCommandPermissionsUpdate => callIfSet l .OnGuildApplicationCommandPermissionsUpdate event
  | .ThreadCreate => callIfSet l .OnThreadCreate event
  | .ThreadUpdate => callIfSet l .OnThreadUpdate event
  | .ThreadDelete => callIfSet l .OnThreadDelete event
  | .ThreadShow => callIfSet l .OnThreadShow event
  | .ThreadHide => callIfSet l .OnThreadHide event
  | .ThreadMemberAdd => callIfSet l .OnThreadMemberAdd event
  | .ThreadMemberUpdate => callIfSet l .OnThreadMemberUpdate event
  | .ThreadMemberRemove => callIfSet l .OnThreadMemberRemove event
  | .GuildChannelCreate => callIfSet l .OnGuildChannelCreate event
  | .GuildChannelUpdate => callIfSet l .OnGuildChannelUpdate event
  | .GuildChannelDelete => callIfSet l .OnGuildChannelDelete event
  | .GuildChannelPinsUpdate => callIfSet l .OnGuildChannelPinsUpdate event
  | .DMChannelCreate => callIfSet l .OnDMChannelCreate event
  | .DMChannelUpdate => callIfSet l .OnDMChannelUpdate event
  | .DMChannelDelete => callIfSet l .OnDMChannelDelete event
  | .DMChannelPinsUpdate => callIfSet l .OnDMChannelPinsUpdate event
  | .DMMessageCreate => callIfSet l .OnDMMessageCreate event
  | .DMMessageUpdate => callIfSet l .OnDMMessageUpdate event
  | .DMMessageDelete => callIfSet l .OnDMMessageDelete event
  | .DMMessageReactionAdd => callIfSet l .OnDMMessageReactionAdd event
  | .DMMessageReactionRemove => callIfSet l .OnDMMessageReactionRemove event
  | .DMMessageReactionRemoveEmoji => callIfSet l .OnDMMessageReactionRemoveEmoji event
  | .DMMessageReactionRemoveAll => callIfSet l .OnDMMessageReactionRemoveAll event
  | .EmojisUpdate => callIfSet l .OnEmojisUpdate event
  | .EmojiCreate => callIfSet l .OnEmojiCreate event
  | .EmojiUpdate => callIfSet l .OnEmojiUpdate event
  | .EmojiDelete => callIfSet l .OnEmojiDelete event
  | .StickersUpdate => callIfSet l .OnStickersUpdate event
  | .StickerCreate => callIfSet l .OnStickerCreate event
  | .StickerUpdate => callIfSet l .OnStickerUpdate event
  | .StickerDelete => callIfSet l .OnStickerDelete event
  | .Ready => callIfSet l .OnReady event
  | .Resumed => callIfSet l .OnResumed event
  | .InvalidSession => callIfSet l .OnInvalidSession event
  | .Disconnected => callIfSet l .OnDisconnected event
  | .GuildJoin => callIfSet l .OnGuildJoin event
  | .GuildUpdate => callIfSet l .OnGuildUpdate event
  | .GuildLeave => callIfSet l .OnGuildLeave event
  | .GuildAvailable => callIfSet l .OnGuildAvailable event
  | .GuildUnavailable => callIfSet l .OnGuildUnavailable event
  | .GuildReady => callIfSet l .OnGuildReady event
  | .GuildsReady => callIfSet l .OnGuildsReady event
  | .GuildBan => callIfSet l .OnGuildBan event
  | .GuildUnban => callIfSet l .OnGuildUnban event
  | .InviteCreate => callIfSet l .OnGuildInviteCreate event
  | .InviteDelete => callIfSet l .OnGuildInviteDelete event
  | .GuildMemberJoin => callIfSet l .OnGuildMemberJoin event
  | .GuildMemberUpdate => callIfSet l .OnGuildMemberUpdate event
  | .GuildMemberLeave => callIfSet l .OnGuildMemberLeave event
  | .GuildMessageCreate => callIfSet l .OnGuildMessageCreate event
  | .GuildMessageUpdate => callIfSet l .OnGuildMessageUpdate event
  | .GuildMessageDelete => callIfSet l .OnGuildMessageDelete event
  | .GuildMessageReactionAdd => callIfSet l .OnGuildMessageReactionAdd event
  | .GuildMessageReactionRemove => callIfSet l .OnGuildMessageReactionRemove event
  | .GuildMessageReactionRemoveEmoji => callIfSet l .OnGuildMessageReactionRemoveEmoji event
  | .GuildMessageReactionRemoveAll => callIfSet l .OnGuildMessageReactionRemoveAll event
  | .VoiceServerUpdate => callIfSet l .OnVoiceServerUpdate event
  | .GuildVoiceStateUpdate => callIfSet l .OnGuildVoiceStateUpdate event
  | .GuildVoiceJoin => callIfSet l .OnGuildVoiceJoin event
  | .GuildVoiceMove => callIfSet l .OnGuildVoiceMove event
  | .GuildVoiceLeave => callIfSet l .OnGuildVoiceLeave event
  | .StageInstanceCreate => callIfSet l .OnStageInstanceCreate event
  | .StageInstanceUpdate => callIfSet l .OnStageInstanceUpdate event
  | .StageInstanceDelete => callIfSet l .OnStageInstanceDelete event
  | .RoleCreate => callIfSet l .OnRoleCreate event
  | .RoleUpdate => callIfSet l .OnRoleUpdate event
  | .RoleDelete => callIfSet l .OnRoleDelete event
  | .GuildScheduledEventCreate => callIfSet l .OnGuildScheduledEventCreate event
  | .GuildScheduledEventUpdate => callIfSet l .OnGuildScheduledEventUpdate event
  | .GuildScheduledEventDelete => callIfSet l .OnGuildScheduledEventDelete event
  | .GuildScheduledEventUserAdd => callIfSet l .OnGuildScheduledEventUserAdd event
  | .GuildScheduledEventUserRemove => callIfSet l .OnGuildScheduledEventUserRemove event
  | .InteractionCreate => callIfSet l .OnInteraction event
  | .ApplicationCommandInteractionCreate => callIfSet l .OnApplicationCommandInteraction event
  | .ComponentInteractionCreate => callIfSet l .OnComponentInteraction event
  | .AutocompleteInteractionCreate => callIfSet l .OnAutocompleteInteraction event
  | .ModalSubmitInteractionCreate => callIfSet l .OnModalSubmit event
  | .MessageCreate => callIfSet l .OnMessageCreate event
  | .MessageUpdate => callIfSet l .OnMessageUpdate event
  | .MessageDelete => callIfSet l .OnMessageDelete event
  | .MessageReactionAdd => callIfSet l .OnMessageReactionAdd event
  | .MessageReactionRemove => callIfSet l .OnMessageReactionRemove event
  | .MessageReactionRemoveEmoji => callIfSet l .OnMessageReactionRemoveEmoji event
  | .MessageReactionRemoveAll => callIfSet l .OnMessageReactionRemoveAll event
  | .SelfUpdate => callIfSet l .OnSelfUpdate event
  | .UserUpdate => callIfSet l .OnUserUpdate event
  | .UserTypingStart => callIfSet l .OnUserTypingStart event
  | .GuildMemberTypingStart => callIfSet l .OnGuildMemberTypingStart event
  | .DMUserTypingStart => callIfSet l .OnDMUserTypingStart event
  | .UserActivityStart => callIfSet l .OnUserActivityStart event
  | .UserActivityUpdate => callIfSet l .OnUserActivityUpdate event
  | .UserActivityStop => callIfSet l .OnUserActivityStop event
  | .UserStatusUpdate => callIfSet l .OnUserStatusUpdate event
  | .UserClientStatusUpdate => callIfSet l .OnUserClientStatusUpdate event
  | .IntegrationCreate => callIfSet l .OnIntegrationCreate event
  | .IntegrationUpdate => callIfSet l .OnIntegrationUpdate event
  | .IntegrationDelete => callIfSet l .OnIntegrationDelete event
  | .GuildIntegrationsUpdate => callIfSet l .OnGuildIntegrationsUpdate event
  | .WebhooksUpdate => callIfSet l .OnGuildWebhooksUpdate event
  | .Other => [.logError event]

/-! ## Sample data for channel decoding and the client -/

/-- A payload with type tag `t` whose body decodes into every channel struct. -/
def samplePayload (t : ChannelType) : ChannelPayload :=
  { decodeType := .ok t,
    decodeGuild := fun _ => .ok { ChannelID := 60, ChannelGuildID := 1, ChannelName := "general" },
    decodeDM := .ok sampleDMChannel }

/-- A session with identity `id` whose `Open` and `Send` return `result`. -/
def sampleGateway (id : Nat) (result : Option GoError) : Gateway :=
  { id := id, openResult := fun _ => result, sendResult := fun _ _ _ => result }

/-- A shard manager whose session 2 is shard 0 and owns guild 1, and which knows no
other shard or guild; the session returns `result`. -/
def sampleShardManager (result : Option GoError) : ShardManager :=
  { ShardByGuildID := fun guildID => if guildID = 1 then some (sampleGateway 2 result) else none,
    Shard := fun shardId => if shardId = 0 then some (sampleGateway 2 result) else none }

/-- A client with no subsystem at all. -/
def bareClient : clientImpl :=
  { restServices := none, shardManager := none, gateway := none, httpServer := none }

/-- A client with the sample shard manager and no gateway. -/
def shardedClient (result : Option GoError) : clientImpl :=
  { restServices := none, shardManager := some (sampleShardManager result), gateway := none,
    httpServer := none }

/-- A client with the session 1 as its gateway, and an HTTP server. -/
def gatewayClient (result : Option GoError) : clientImpl :=
  { restServices := none, shardManager := none, gateway := some (sampleGateway 1 result),
    httpServer := some { address := ":80" } }

/-- A client with the session 1 as its gateway and the sample shard manager as well. -/
def bothClient : clientImpl :=
  { restServices := none, shardManager := some (sampleShardManager none),
    gateway := some (sampleGateway 1 none), httpServer := none }

/-- A presence update. -/
def samplePresence : MessageDataPresenceUpdate := { token := 3 }

/-! ## `api/disgo.go`: the operating system name -/

/-- The library function `strings.HasPrefix(s, p)`, taken as the usual test that `s`
begins with `p`, character by character. -/
def HasPrefix (s p : String) : Bool := p.data.isPrefixOf s.data

/-- `GetOS`, with the value of `runtime.GOOS` as its argument. -/
def GetOS (GOOS : String) : String :=
  let OS := GOOS
  if HasPrefix OS "windows" then "windows"
  else if HasPrefix OS "darwin" then "darwin"
  else "linux"

/-! ## `bot/client.go`: closing -/

/-- A `Close(ctx)` call that `clientImpl.Close` makes on a subsystem; the gateway is
named by its identity. -/
inductive CloseCall where
  | restClose (ctx : Context)
  | gatewayClose (gateway : Nat) (ctx : Context)
  | shardManagerClose (ctx : Context)
  | httpServerClose (ctx : Context)
deriving DecidableEq, Repr

/-- `clientImpl.Close` (lines 137 to 150): the calls it makes, in order. -/
def clientImpl.Close (c : clientImpl) (ctx : Context) : List CloseCall :=
  let calls : List CloseCall := []
  let calls := match c.restServices with
    | some _ => calls ++ [.restClose ctx]
    | none => calls
  let calls := match c.gateway with
    | some gateway => calls ++ [.gatewayClose gateway.id ctx]
    | none => calls
  let calls := match c.shardManager with
    | some _ => calls ++ [.shardManagerClose ctx]
    | none => calls
  match c.httpServer with
  | some _ => calls ++ [.httpServerClose ctx]
  | none => calls

/-- The place of a subsystem in the order REST, gateway, shard manager, HTTP server. -/
def CloseCall.rank : CloseCall → Nat
  | .restClose _ => 0
  | .gatewayClose _ _ => 1
  | .shardManagerClose _ => 2
  | .httpServerClose _ => 3

/-! ## `core/cache_config.go`: applying options -/

/-- `CacheConfig.Apply`: `opt(c)` for each option in turn, on the same config. -/
def CacheConfig.Apply (c : CacheConfig) : List CacheConfigOpt → CacheConfig
  | [] => c
  | opt :: rest => CacheConfig.Apply (opt c) rest

/-! ## `channel.go`: encoding a channel -/

/-- Modelled from the spec: the JSON object that `json.Marshal` (package `json` of the
repository, not among the sources) writes for a channel and that `json.Unmarshal`
reads; the spec fixes JSON as the wire format and the type tag as the key that drives
decoding. The object is reduced to the keys `type`, `id`, `guild_id`, `name` and the
further keys of a `DMChannel`; an absent key is the zero value. -/
structure ChannelObject where
  type : ChannelType
  id : Snowflake
  guild_id : Snowflake
  name : String
  last_message_id : Option Snowflake
  recipients : List User
  last_pin_timestamp : Option Time
deriving DecidableEq, Repr

/-- Modelled from the spec: what `json.Unmarshal` gives on the bytes of an object: the
tag is the key `type`, every struct takes the keys its field tags name, further keys
are ignored and no decoding fails. -/
def ChannelObject.payload (o : ChannelObject) : ChannelPayload :=
  { decodeType := .ok o.type,
    decodeGuild := fun _ =>
      .ok { ChannelID := o.id, ChannelGuildID := o.guild_id, ChannelName := o.name },
    decodeDM :=
      .ok { ChannelID := o.id, LastMessageID := o.last_message_id, Recipients := o.recipients,
            LastPinTimestamp := o.last_pin_timestamp } }

/-- The object that `MarshalJSON` of a guild channel struct writes: `Type: c.Type()`
and the fields of the struct. -/
def marshalGuildFields (t : ChannelType) (v : ChannelFields) : ChannelObject :=
  { type := t, id := v.ChannelID, guild_id := v.ChannelGuildID, name := v.ChannelName,
    last_message_id := none, recipients := [], last_pin_timestamp := none }

/-- `MarshalJSON` of each channel struct (lines 196, 265, 333, 419, 513, 593, 661, 729
and 811): the type tag written is `c.Type()`. -/
def Channel.MarshalJSON (c : Channel) : ChannelObject :=
  match c with
  | .GuildTextChannel v => marshalGuildFields c.Type v
  | .DMChannel v =>
    { type := v.Type, id := v.ChannelID, guild_id := 0, name := "",
      last_message_id := v.LastMessageID, recipients := v.Recipients,
      last_pin_timestamp := v.LastPinTimestamp }
  | .GuildVoiceChannel v => marshalGuildFields c.Type v
  | .GuildCategoryChannel v => marshalGuildFields c.Type v
  | .GuildNewsChannel v => marshalGuildFields c.Type v
  | .GuildNewsThread v => marshalGuildFields c.Type v
  | .GuildPublicThread v => marshalGuildFields c.Type v
  | .GuildPrivateThread v => marshalGuildFields c.Type v
  | .GuildStageVoiceChannel v => marshalGuildFields c.Type v

/-- The concrete struct of a channel value, by name. -/
inductive ChannelVariant where
  | GuildTextChannel
  | DMChannel
  | GuildVoiceChannel
  | GuildCategoryChannel
  | GuildNewsChannel
  | GuildNewsThread
  | GuildPublicThread
  | GuildPrivateThread
  | GuildStageVoiceChannel
deriving DecidableEq, Repr

/-- The concrete struct of a channel value. -/
def Channel.variant : Channel → ChannelVariant
  | .GuildTextChannel _ => .GuildTextChannel
  | .DMChannel _ => .DMChannel
  | .GuildVoiceChannel _ => .GuildVoiceChannel
  | .GuildCategoryChannel _ => .GuildCategoryChannel
  | .GuildNewsChannel _ => .GuildNewsChannel
  | .GuildNewsThread _ => .GuildNewsThread
  | .GuildPublicThread _ => .GuildPublicThread
  | .GuildPrivateThread _ => .GuildPrivateThread
  | .GuildStageVoiceChannel _ => .GuildStageVoiceChannel

/-- Encoding a channel and decoding the result into an empty `UnmarshalChannel`. -/
def roundTrip (c : Channel) : UnmarshalChannel × Option GoError :=
  UnmarshalChannel.UnmarshalJSON { Channel := none } c.MarshalJSON.payload

/-! ## Sample data for the last claims -/

/-- A voice channel of guild 1. -/
def sampleVoiceChannel : Channel :=
  .GuildVoiceChannel { ChannelID := 61, ChannelGuildID := 1, ChannelName := "lounge" }

/-- A payload with type tag `t` whose body fails to decode into every struct. -/
def brokenPayload (t : ChannelType) : ChannelPayload :=
  { decodeType := .ok t,
    decodeGuild := fun _ => .fail (.other 2),
    decodeDM := .fail (.other 2) }

/-- A client with all four subsystems; its gateway is session 1. -/
def fullClient : clientImpl :=
  { restServices := some { token := 1 }, shardManager := some (sampleShardManager none),
    gateway := some (sampleGateway 1 none), httpServer := some { address := ":80" } }

/-- A config with the flags 5 and policies that retain nothing. -/
def sampleConfig : CacheConfig :=
  { CacheFlags := 5, MemberCachePolicy := fun _ => false, MessageCachePolicy := fun _ => false }

/-! ## Bit-level lemmas -/

theorem has_of_has_and (p m a : Permissions) (h : Permissions.Has (p &&& m) a = true) :
    Permissions.Has p a = true := by
  simp only [Permissions.Has, beq_iff_eq] at h ⊢
  apply Nat.eq_of_testBit_eq
  intro i
  have hi := congrArg (fun x => Nat.testBit x i) h
  simp only [Nat.testBit_and] at hi ⊢
  revert hi
  cases Nat.testBit p i <;> cases Nat.testBit m i <;> cases Nat.testBit a i <;> simp

theorem has_or_of_has (p x a : Permissions) (h : Permissions.Has p a = true) :
    Permissions.Has (p ||| x) a = true := by
  simp only [Permissions.Has, beq_iff_eq] at h ⊢
  apply Nat.eq_of_testBit_eq
  intro i
  have hi := congrArg (fun x => Nat.testBit x i) h
  simp only [Nat.testBit_and, Nat.testBit_or] at hi ⊢
  revert hi
  cases Nat.testBit p i <;> cases Nat.testBit x i <;> cases Nat.testBit a i <;> simp

theorem mask_overwrite (p m d a : Permissions) :
    (((p &&& m) &&& d) ||| a) &&& m = ((p &&& d) ||| a) &&& m := by
  apply Nat.eq_of_testBit_eq
  intro i
  simp only [Nat.testBit_and, Nat.testBit_or]
  cases Nat.testBit p i <;> cases Nat.testBit m i <;> cases Nat.testBit d i <;>
    cases Nat.testBit a i <;> rfl

theorem and_mask_subset (p m : Permissions) : (p &&& m) &&& m = p &&& m := by
  apply Nat.eq_of_testBit_eq
  intro i
  simp only [Nat.testBit_and]
  cases Nat.testBit p i <;> cases Nat.testBit m i <;> rfl

/-! ## The role loop of `GetMemberPermissions` -/

theorem has_foldl_of_has (a : Permissions) (rs : List Role) (p : Permissions)
    (h : Permissions.Has p a = true) :
    Permissions.Has (rs.foldl (fun acc role => acc ||| role.Permissions) p) a = true := by
  induction rs generalizing p with
  | nil => simpa using h
  | cons r rs ih => exact ih _ (has_or_of_has p r.Permissions a h)

theorem memberRolesLoop_of_not_admin (K : PermissionConsts) (rs : List Role) (p : Permissions)
    (h : Permissions.Has (rs.foldl (fun acc role => acc ||| role.Permissions) p)
      K.PermissionAdministrator = false) :
    memberRolesLoop K p rs = some (rs.foldl (fun acc role => acc ||| role.Permissions) p) := by
  induction rs generalizing p with
  | nil => rfl
  | cons r rs ih =>
    have hstep : Permissions.Has (p ||| r.Permissions) K.PermissionAdministrator = false := by
      cases hq : Permissions.Has (p ||| r.Permissions) K.PermissionAdministrator with
      | false => rfl
      | true =>
        have := has_foldl_of_has K.PermissionAdministrator rs _ hq
        simp only [List.foldl_cons] at h
        rw [h] at this
        exact absurd this (by decide)
    simp only [memberRolesLoop, Permissions.Add, hstep, List.foldl_cons]
    exact ih _ h

theorem GetMemberPermissions_of_not_admin (K : PermissionConsts) (c : Caches) (m : Member)
    (hOwner : c.isOwner m.GuildID m.User.ID = false)
    (hAdmin : Permissions.Has (c.combinedRolePermissions m) K.PermissionAdministrator = false) :
    c.GetMemberPermissions K m =
      if m.CommunicationDisabledUntil.isSome then c.combinedRolePermissions m &&& K.timeoutMask
      else c.combinedRolePermissions m := by
  unfold Caches.GetMemberPermissions
  rw [hOwner]
  have := memberRolesLoop_of_not_admin K (c.MemberRoles m) (c.publicRolePermissions m.GuildID) hAdmin
  simp only [this, Caches.combinedRolePermissions]
  rfl

theorem roleIDsContain_eq (id : Snowflake) (roleIDs : List Snowflake) :
    roleIDsContain id roleIDs = decide (id ∈ roleIDs) := by
  induction roleIDs with
  | nil => simp [roleIDsContain]
  | cons r rs ih =>
    by_cases h : r = id
    · simp [roleIDsContain, h]
    · have h2 : ¬ id = r := fun e => h e.symm
      simp [roleIDsContain, h, h2, ih]

/-! ## Claims about `GetMemberPermissions` and `GetMemberPermissionsInChannel` -/

/-- C1, evaluated where the code departs from it: on channel 50 with an empty public
overwrite and a member overwrite that denies only send messages, for a member who is
not the owner, holds no administrator bit and is not timed out, the code returns view
channel alone, while the plain form `(p & ~deny) | allow` applied in order keeps read
message history as well. -/
theorem C1_plain_overwrite_form_violated :
    (sampleCaches [samplePublicRole] denySendChannel).Channels.GetGuildChannel 50
        = some denySendChannel ∧
    (sampleCaches [samplePublicRole] denySendChannel).isOwner 1 2 = false ∧
    (sampleCaches [samplePublicRole] denySendChannel).GetMemberPermissions sampleConsts
        (sampleMember [] none) = 1024 ||| 2048 ||| 65536 ∧
    Permissions.Has (1024 ||| 2048 ||| 65536) sampleConsts.PermissionAdministrator = false ∧
    (sampleCaches [samplePublicRole] denySendChannel).GetMemberPermissionsInChannel sampleConsts
        50 (sampleMember [] none) = some 1024 ∧
    plainPermissionsInChannel denySendChannel (sampleMember [] none) (1024 ||| 2048 ||| 65536)
        = 1024 ||| 65536 := by
  decide

/-- C2, evaluated where the code departs from it: on channel 50 with a member overwrite
that denies view channel and send messages and allows nothing, the result of
`GetMemberPermissionsInChannel` for a member who is neither owner nor administrator
still contains send messages, a bit of the overwrite's deny mask. -/
theorem C2_denied_bit_survives :
    getPermissionOverwrite denyTwoChannel .PermissionOverwriteTypeMember 2
        = some (.member ⟨2, 0, 1024 ||| 2048⟩) ∧
    (sampleCaches [samplePublicRole] denyTwoChannel).isOwner 1 2 = false ∧
    Permissions.Has ((sampleCaches [samplePublicRole] denyTwoChannel).GetMemberPermissions
        sampleConsts (sampleMember [] none)) sampleConsts.PermissionAdministrator = false ∧
    (sampleCaches [samplePublicRole] denyTwoChannel).GetMemberPermissionsInChannel sampleConsts
        50 (sampleMember [] none) = some sampleSendMessages ∧
    Permissions.Has (1024 ||| 2048) sampleSendMessages = true ∧
    Permissions.Has 0 sampleSendMessages = false := by
  decide

/-- C3, evaluated where the code departs from it: for a timed out member who is neither
owner nor administrator, `GetMemberPermissions` returns a subset of view channel and
read message history, but `GetMemberPermissionsInChannel` on a cached channel whose
only overwrite lets the member's role send messages does not return: the lookup of the
public overwrite panics. -/
theorem C3_timed_out_in_channel_panics :
    (sampleMember [5] (some 3600)).CommunicationDisabledUntil.isSome = true ∧
    (sampleCaches [samplePublicRole, sampleSendRole] roleGrantChannel).isOwner 1 2 = false ∧
    Permissions.Has ((sampleCaches [samplePublicRole, sampleSendRole]
        roleGrantChannel).combinedRolePermissions (sampleMember [5] (some 3600)))
        sampleConsts.PermissionAdministrator = false ∧
    (sampleCaches [samplePublicRole, sampleSendRole] roleGrantChannel).GetMemberPermissions
        sampleConsts (sampleMember [5] (some 3600)) = 1024 ||| 65536 ∧
    (sampleCaches [samplePublicRole, sampleSendRole] roleGrantChannel).Channels.GetGuildChannel 50
        = some roleGrantChannel ∧
    roleGrantChannel.RolePermissionOverwrite roleGrantChannel.GuildID = none ∧
    (sampleCaches [samplePublicRole, sampleSendRole] roleGrantChannel).GetMemberPermissionsInChannel
        sampleConsts 50 (sampleMember [5] (some 3600)) = none := by
  decide

/-- C4 as stated fails: a member whose `CommunicationDisabledUntil` is the instant 50,
not after the current time 100, gets other permissions from `GetMemberPermissions` and
from `GetMemberPermissionsInChannel` than the same member with the field unset. -/
theorem C4_expired_timeout_still_masked :
    (50 : Time) ≤ 100 ∧
    (sampleCaches [samplePublicRole] neutralChannel).GetMemberPermissions sampleConsts
        ((sampleMember [] none).withTimeout (some 50))
      ≠ (sampleCaches [samplePublicRole] neutralChannel).GetMemberPermissions sampleConsts
        ((sampleMember [] none).withTimeout none) ∧
    (sampleCaches [samplePublicRole] neutralChannel).GetMemberPermissionsInChannel sampleConsts 50
        ((sampleMember [] none).withTimeout (some 50))
      ≠ (sampleCaches [samplePublicRole] neutralChannel).GetMemberPermissionsInChannel
        sampleConsts 50 ((sampleMember [] none).withTimeout none) := by
  decide

theorem applyChannelOverwrites_timeout (K : PermissionConsts) (channel : GuildChannel)
    (m : Member) (t : Time) (p : Permissions) :
    applyChannelOverwrites K channel (m.withTimeout (some t)) (p &&& K.timeoutMask)
      = (applyChannelOverwrites K channel (m.withTimeout none) p).map
          (fun r => r &&& K.timeoutMask) := by
  simp only [applyChannelOverwrites, Member.withTimeout]
  cases channel.RolePermissionOverwrite channel.GuildID with
  | none => rfl
  | some publicOverwrite =>
    simp only []
    cases roleOverwritesLoop channel m.RoleIDs 0 0 with
    | none => rfl
    | some roles =>
      simp only []
      cases channel.MemberPermissionOverwrite m.User.ID with
      | none => rfl
      | some memberOverwrite =>
        simp [mask_overwrite]

/-- C4 as amended: the timeout mask applies whenever `CommunicationDisabledUntil` is
set, whatever the instant. For a member who is not the owner and whose combined role
permissions lack administrator, and for every instant `t`, `GetMemberPermissions` with
the field set to `t` is the result with the field unset AND-ed with view channel and
read message history, and so is `GetMemberPermissionsInChannel` on every cached
channel of a guild the member does not own (a panic stays a panic). -/
theorem C4_timeout_mask_ignores_instant (K : PermissionConsts) (c : Caches) (m : Member)
    (t : Time)
    (hOwner : c.isOwner m.GuildID m.User.ID = false)
    (hAdmin : Permissions.Has (c.combinedRolePermissions m) K.PermissionAdministrator = false) :
    c.GetMemberPermissions K (m.withTimeout (some t))
      = c.GetMemberPermissions K (m.withTimeout none) &&& K.timeoutMask ∧
    ∀ (channelID : Snowflake) (channel : GuildChannel),
      c.Channels.GetGuildChannel channelID = some channel →
      c.isOwner channel.GuildID m.User.ID = false →
      c.GetMemberPermissionsInChannel K channelID (m.withTimeout (some t))
        = (c.GetMemberPermissionsInChannel K channelID (m.withTimeout none)).map
            (fun r => r &&& K.timeoutMask) := by
  have hSet : c.GetMemberPermissions K (m.withTimeout (some t))
      = c.combinedRolePermissions m &&& K.timeoutMask :=
    GetMemberPermissions_of_not_admin K c (m.withTimeout (some t)) hOwner hAdmin
  have hUnset : c.GetMemberPermissions K (m.withTimeout none) = c.combinedRolePermissions m :=
    GetMemberPermissions_of_not_admin K c (m.withTimeout none) hOwner hAdmin
  refine ⟨by rw [hSet, hUnset], ?_⟩
  intro channelID channel hCh hChOwner
  have hAdminSet : Permissions.Has (c.combinedRolePermissions m &&& K.timeoutMask)
      K.PermissionAdministrator = false := by
    cases hq : Permissions.Has (c.combinedRolePermissions m &&& K.timeoutMask)
        K.PermissionAdministrator with
    | false => rfl
    | true =>
      have := has_of_has_and _ _ _ hq
      rw [hAdmin] at this
      exact absurd this (by decide)
  have hUser : (m.withTimeout (some t)).User.ID = m.User.ID := rfl
  have hUser2 : (m.withTimeout none).User.ID = m.User.ID := rfl
  simp only [Caches.GetMemberPermissionsInChannel, hCh, hUser, hUser2, hChOwner, hSet, hUnset,
    hAdminSet, hAdmin]
  exact applyChannelOverwrites_timeout K channel m t _

/-- C4 as amended, at a member whose timeout ended long ago. -/
theorem C4_timeout_mask_ignores_instant_witness :
    (sampleCaches [samplePublicRole] neutralChannel).isOwner (sampleMember [] none).GuildID
        (sampleMember [] none).User.ID = false ∧
    Permissions.Has ((sampleCaches [samplePublicRole] neutralChannel).combinedRolePermissions
        (sampleMember [] none)) sampleConsts.PermissionAdministrator = false ∧
    ((sampleCaches [samplePublicRole] neutralChannel).GetMemberPermissions sampleConsts
        ((sampleMember [] none).withTimeout (some 50))
      = (sampleCaches [samplePublicRole] neutralChannel).GetMemberPermissions sampleConsts
        ((sampleMember [] none).withTimeout none) &&& sampleConsts.timeoutMask ∧
    ∀ (channelID : Snowflake) (channel : GuildChannel),
      (sampleCaches [samplePublicRole] neutralChannel).Channels.GetGuildChannel channelID
        = some channel →
      (sampleCaches [samplePublicRole] neutralChannel).isOwner channel.GuildID
        (sampleMember [] none).User.ID = false →
      (sampleCaches [samplePublicRole] neutralChannel).GetMemberPermissionsInChannel sampleConsts
          channelID ((sampleMember [] none).withTimeout (some 50))
        = ((sampleCaches [samplePublicRole] neutralChannel).GetMemberPermissionsInChannel
            sampleConsts channelID ((sampleMember [] none).withTimeout none)).map
            (fun r => r &&& sampleConsts.timeoutMask)) :=
  ⟨by decide, by decide,
    C4_timeout_mask_ignores_instant sampleConsts (sampleCaches [samplePublicRole] neutralChannel)
      (sampleMember [] none) 50 (by decide) (by decide)⟩


/-- C5: a member whose user id is the `OwnerID` of their cached guild gets
`PermissionsAll` from `GetMemberPermissions`, and from `GetMemberPermissionsInChannel`
on every cached channel of that guild, whatever the roles, the overwrites and
`CommunicationDisabledUntil` are. -/
theorem C5_owner_has_all (K : PermissionConsts) (c : Caches) (m : Member) (guild : Guild)
    (hGuild : Cache.Get c.Guilds m.GuildID = some guild)
    (hOwner : guild.OwnerID = m.User.ID) :
    c.GetMemberPermissions K m = K.PermissionsAll ∧
    ∀ (channelID : Snowflake) (channel : GuildChannel),
      c.Channels.GetGuildChannel channelID = some channel →
      channel.GuildID = m.GuildID →
      c.GetMemberPermissionsInChannel K channelID m = some K.PermissionsAll := by
  have hIs : c.isOwner m.GuildID m.User.ID = true := by
    simp [Caches.isOwner, hGuild, hOwner]
  refine ⟨by simp [Caches.GetMemberPermissions, hIs], ?_⟩
  intro channelID channel hCh hGid
  simp [Caches.GetMemberPermissionsInChannel, hCh, hGid, hIs]

/-- C5 at the owner of guild 1, timed out, on a channel whose overwrites would deny. -/
theorem C5_owner_has_all_witness :
    Cache.Get (sampleCaches [sampleViewOnlyRole] denyTwoChannel).Guilds sampleOwner.GuildID
        = some sampleGuild ∧
    sampleGuild.OwnerID = sampleOwner.User.ID ∧
    ((sampleCaches [sampleViewOnlyRole] denyTwoChannel).GetMemberPermissions sampleConsts
        sampleOwner = sampleConsts.PermissionsAll ∧
    ∀ (channelID : Snowflake) (channel : GuildChannel),
      (sampleCaches [sampleViewOnlyRole] denyTwoChannel).Channels.GetGuildChannel channelID
        = some channel →
      channel.GuildID = sampleOwner.GuildID →
      (sampleCaches [sampleViewOnlyRole] denyTwoChannel).GetMemberPermissionsInChannel
        sampleConsts channelID sampleOwner = some sampleConsts.PermissionsAll) :=
  ⟨by decide, by decide,
    C5_owner_has_all sampleConsts (sampleCaches [sampleViewOnlyRole] denyTwoChannel) sampleOwner
      sampleGuild (by decide) (by decide)⟩

/-- C6, evaluated where the code departs from it: when the public role of the guild
grants administrator and the member, not the owner, has no roles (or none that is
cached), the role loop never runs its administrator test and `GetMemberPermissions`
returns the administrator bit alone, not `PermissionsAll`; the channel variant tests
the bit again and returns `PermissionsAll`. -/
theorem C6_public_role_administrator_missed :
    (sampleCaches [sampleAdminPublicRole] neutralChannel).isOwner 1 2 = false ∧
    Permissions.Has ((sampleCaches [sampleAdminPublicRole] neutralChannel).combinedRolePermissions
        (sampleMember [] none)) sampleConsts.PermissionAdministrator = true ∧
    (sampleCaches [sampleAdminPublicRole] neutralChannel).GetMemberPermissions sampleConsts
        (sampleMember [] none) = 8 ∧
    (sampleCaches [sampleAdminPublicRole] neutralChannel).GetMemberPermissions sampleConsts
        (sampleMember [5] none) = 8 ∧
    (8 : Permissions) ≠ sampleConsts.PermissionsAll ∧
    (sampleCaches [sampleAdminPublicRole] neutralChannel).GetMemberPermissionsInChannel
        sampleConsts 50 (sampleMember [] none) = some sampleConsts.PermissionsAll := by
  decide

/-- C7: for a member who is not the guild owner, is not timed out and whose combined
permissions lack administrator, `GetMemberPermissions` is the permissions of the public
role (the role cached under the guild id in the member's guild, zero if there is none)
OR-ed with the permissions of every role of `MemberRoles(member)`, and `MemberRoles`
is exactly the cached roles of the member's guild whose id occurs in `RoleIDs`. -/
theorem C7_member_permissions_are_role_union (K : PermissionConsts) (c : Caches) (m : Member)
    (hOwner : c.isOwner m.GuildID m.User.ID = false)
    (hTimeout : m.CommunicationDisabledUntil = none)
    (hAdmin : Permissions.Has (c.combinedRolePermissions m) K.PermissionAdministrator = false) :
    c.GetMemberPermissions K m
      = (c.MemberRoles m).foldl (fun acc role => acc ||| role.Permissions)
          (match GroupedCache.Get c.Roles m.GuildID m.GuildID with
            | some publicRole => publicRole.Permissions
            | none => 0) ∧
    c.MemberRoles m
      = (c.Roles.filter (fun e => decide (e.groupID = m.GuildID ∧ e.value.ID ∈ m.RoleIDs))).map
          (fun e => e.value) := by
  constructor
  · rw [GetMemberPermissions_of_not_admin K c m hOwner hAdmin, hTimeout]
    rfl
  · simp only [Caches.MemberRoles, GroupedCache.FindAll]
    congr 1
    apply List.filter_congr
    intro e _
    by_cases hg : e.groupID = m.GuildID
    · simp [hg, roleIDsContain_eq]
    · simp [hg]

/-- C7 at a member of guild 1 holding role 5, with a role of another id cached too. -/
theorem C7_member_permissions_are_role_union_witness :
    (sampleCaches [samplePublicRole, sampleBanRole, ⟨6, 2⟩] neutralChannel).isOwner
        (sampleMember [5] none).GuildID (sampleMember [5] none).User.ID = false ∧
    (sampleMember [5] none).CommunicationDisabledUntil = none ∧
    Permissions.Has ((sampleCaches [samplePublicRole, sampleBanRole, ⟨6, 2⟩]
        neutralChannel).combinedRolePermissions (sampleMember [5] none))
        sampleConsts.PermissionAdministrator = false ∧
    ((sampleCaches [samplePublicRole, sampleBanRole, ⟨6, 2⟩] neutralChannel).GetMemberPermissions
        sampleConsts (sampleMember [5] none)
      = ((sampleCaches [samplePublicRole, sampleBanRole, ⟨6, 2⟩] neutralChannel).MemberRoles
          (sampleMember [5] none)).foldl (fun acc role => acc ||| role.Permissions)
          (match GroupedCache.Get (sampleCaches [samplePublicRole, sampleBanRole, ⟨6, 2⟩]
              neutralChannel).Roles (sampleMember [5] none).GuildID
              (sampleMember [5] none).GuildID with
            | some publicRole => publicRole.Permissions
            | none => 0) ∧
    (sampleCaches [samplePublicRole, sampleBanRole, ⟨6, 2⟩] neutralChannel).MemberRoles
        (sampleMember [5] none)
      = ((sampleCaches [samplePublicRole, sampleBanRole, ⟨6, 2⟩] neutralChannel).Roles.filter
          (fun e => decide (e.groupID = (sampleMember [5] none).GuildID
            ∧ e.value.ID ∈ (sampleMember [5] none).RoleIDs))).map (fun e => e.value)) :=
  ⟨by decide, by decide, by decide,
    C7_member_permissions_are_role_union sampleConsts
      (sampleCaches [samplePublicRole, sampleBanRole, ⟨6, 2⟩] neutralChannel)
      (sampleMember [5] none) (by decide) (by decide) (by decide)⟩

/-- C8, evaluated where the code departs from it: role 5 has no overwrite in the
channel and role 6 has one that allows send messages. With `RoleIDs = [6]` the
overwrite of role 6 is applied; with `RoleIDs = [5, 6]` or `[6, 5]` the lookup for
role 5 panics, so the overwrite of role 6 is not applied. -/
theorem C8_role_without_overwrite_stops :
    roleOverwritesLoop secondRoleChannel [6] 0 0 = some (sampleSendMessages, 0) ∧
    (sampleCaches [sampleViewOnlyRole] secondRoleChannel).GetMemberPermissionsInChannel
        sampleConsts 50 (sampleMember [6] none) = some (1024 ||| sampleSendMessages) ∧
    getPermissionOverwrite secondRoleChannel .PermissionOverwriteTypeRole 5 = none ∧
    secondRoleChannel.RolePermissionOverwrite 5 = none ∧
    roleOverwritesLoop secondRoleChannel [5, 6] 0 0 = none ∧
    (sampleCaches [sampleViewOnlyRole] secondRoleChannel).GetMemberPermissionsInChannel
        sampleConsts 50 (sampleMember [5, 6] none) = none ∧
    (sampleCaches [sampleViewOnlyRole] secondRoleChannel).GetMemberPermissionsInChannel
        sampleConsts 50 (sampleMember [6, 5] none) = none := by
  decide

/-- C9, evaluated where the code departs from it: the channel has a member overwrite
that allows send messages for a member who is not timed out, but no public overwrite;
`GetMemberPermissionsInChannel` panics on the lookup of the public overwrite instead
of returning a result that contains send messages. -/
theorem C9_member_allow_not_returned :
    getPermissionOverwrite memberAllowChannel .PermissionOverwriteTypeMember 2
        = some (.member ⟨2, sampleSendMessages, 0⟩) ∧
    (sampleMember [] none).CommunicationDisabledUntil = none ∧
    (sampleCaches [sampleViewOnlyRole] memberAllowChannel).isOwner 1 2 = false ∧
    (sampleCaches [sampleViewOnlyRole] memberAllowChannel).GetMemberPermissions sampleConsts
        (sampleMember [] none) = 1024 ∧
    (sampleCaches [sampleViewOnlyRole] memberAllowChannel).Channels.GetGuildChannel 50
        = some memberAllowChannel ∧
    memberAllowChannel.RolePermissionOverwrite memberAllowChannel.GuildID = none ∧
    (sampleCaches [sampleViewOnlyRole] memberAllowChannel).GetMemberPermissionsInChannel
        sampleConsts 50 (sampleMember [] none) = none := by
  decide

/-! ## What the channel computation returns when no lookup panics -/

theorem or_allow_contains (x y a : Permissions) : (x ||| (y ||| a)) &&& a = a := by
  apply Nat.eq_of_testBit_eq
  intro i
  simp only [Nat.testBit_and, Nat.testBit_or]
  cases Nat.testBit x i <;> cases Nat.testBit y i <;> cases Nat.testBit a i <;> rfl

/-- Whenever the overwrite step returns for a timed out member, the result lies within
view channel and read message history. -/
theorem applyChannelOverwrites_timed_out (K : PermissionConsts) (channel : GuildChannel)
    (m : Member) (p r : Permissions) (hT : m.CommunicationDisabledUntil.isSome = true)
    (h : applyChannelOverwrites K channel m p = some r) : r &&& K.timeoutMask = r := by
  simp only [applyChannelOverwrites, hT] at h
  cases hP : channel.RolePermissionOverwrite channel.GuildID with
  | none => simp [hP] at h
  | some publicOverwrite =>
    cases hR : roleOverwritesLoop channel m.RoleIDs 0 0 with
    | none => simp [hP, hR] at h
    | some roles =>
      cases hM : channel.MemberPermissionOverwrite m.User.ID with
      | none => simp [hP, hR, hM] at h
      | some memberOverwrite =>
        simp only [hP, hR, hM, if_true, Option.some.injEq] at h
        rw [← h]
        exact and_mask_subset _ _

/-- Whenever the overwrite step returns for a member who is not timed out and has a
member overwrite, the result contains every bit that overwrite allows. -/
theorem applyChannelOverwrites_member_allow (K : PermissionConsts) (channel : GuildChannel)
    (m : Member) (p r : Permissions) (o : MemberPermissionOverwrite)
    (hT : m.CommunicationDisabledUntil = none)
    (hO : channel.MemberPermissionOverwrite m.User.ID = some (some o))
    (h : applyChannelOverwrites K channel m p = some r) : r &&& o.Allow = o.Allow := by
  simp only [applyChannelOverwrites, hT, hO] at h
  cases hP : channel.RolePermissionOverwrite channel.GuildID with
  | none => simp [hP] at h
  | some publicOverwrite =>
    cases hR : roleOverwritesLoop channel m.RoleIDs 0 0 with
    | none => simp [hP, hR] at h
    | some roles =>
      simp only [hP, hR, Option.isSome_none, Bool.false_eq_true, if_false,
        Option.some.injEq] at h
      rw [← h]
      exact or_allow_contains _ _ _

/-- For a timed out member who is not the owner and whose combined role permissions
lack administrator, `GetMemberPermissions` lies within view channel and read message
history. -/
theorem GetMemberPermissions_timed_out (K : PermissionConsts) (c : Caches) (m : Member)
    (hOwner : c.isOwner m.GuildID m.User.ID = false)
    (hAdmin : Permissions.Has (c.combinedRolePermissions m) K.PermissionAdministrator = false)
    (hT : m.CommunicationDisabledUntil.isSome = true) :
    c.GetMemberPermissions K m &&& K.timeoutMask = c.GetMemberPermissions K m := by
  rw [GetMemberPermissions_of_not_admin K c m hOwner hAdmin, hT]
  exact and_mask_subset _ _

/-- For such a member, whenever `GetMemberPermissionsInChannel` returns on a cached
channel of a guild the member does not own, the result lies within the same mask. -/
theorem GetMemberPermissionsInChannel_timed_out_of_returns (K : PermissionConsts) (c : Caches)
    (m : Member) (channelID : Snowflake) (channel : GuildChannel) (r : Permissions)
    (hOwner : c.isOwner m.GuildID m.User.ID = false)
    (hAdmin : Permissions.Has (c.combinedRolePermissions m) K.PermissionAdministrator = false)
    (hT : m.CommunicationDisabledUntil.isSome = true)
    (hCh : c.Channels.GetGuildChannel channelID = some channel)
    (hChOwner : c.isOwner channel.GuildID m.User.ID = false)
    (h : c.GetMemberPermissionsInChannel K channelID m = some r) :
    r &&& K.timeoutMask = r := by
  have hP := GetMemberPermissions_of_not_admin K c m hOwner hAdmin
  rw [hT] at hP
  have hNo : Permissions.Has (c.combinedRolePermissions m &&& K.timeoutMask)
      K.PermissionAdministrator = false := by
    cases hq : Permissions.Has (c.combinedRolePermissions m &&& K.timeoutMask)
        K.PermissionAdministrator with
    | false => rfl
    | true =>
      have := has_of_has_and _ _ _ hq
      rw [hAdmin] at this
      exact absurd this (by decide)
  simp only [Caches.GetMemberPermissionsInChannel, hCh, hChOwner, hP, if_true, hNo] at h
  exact applyChannelOverwrites_timed_out K channel m _ r hT h

/-! ## Claims about channel types -/

/-- C10, evaluated where the code departs from it: `DMChannel.Type` returns
`ChannelTypeGuildText`, whose value is 0, for every `DMChannel`, and never
`ChannelTypeDM`, whose value is 1. -/
theorem C10_dm_channel_type_is_guild_text :
    (∀ c : DMChannel, c.Type = ChannelTypeGuildText ∧ c.Type ≠ ChannelTypeDM) ∧
    sampleDMChannel.Type = 0 ∧ ChannelTypeDM = 1 := by
  exact ⟨fun _ => ⟨rfl, (by decide : ChannelTypeGuildText ≠ ChannelTypeDM)⟩, by decide, by decide⟩

/-! ## Claims about channel decoding -/

/-- C11, evaluated where the code departs from it: a payload with type tag 1 is decoded
into a `DMChannel`, and a payload with type tag 2 into a `GuildVoiceChannel`, without
error, but `Type()` of either decoded channel is `ChannelTypeGuildText`, 0, not the
tag. -/
theorem C11_decoded_type_differs_from_tag :
    (samplePayload ChannelTypeDM).decodeType = .ok 1 ∧
    UnmarshalChannel.UnmarshalJSON { Channel := none } (samplePayload ChannelTypeDM)
      = ({ Channel := some (.DMChannel sampleDMChannel) }, none) ∧
    (Channel.DMChannel sampleDMChannel).Type = 0 ∧
    (samplePayload ChannelTypeGuildVoice).decodeType = .ok 2 ∧
    UnmarshalChannel.UnmarshalJSON { Channel := none } (samplePayload ChannelTypeGuildVoice)
      = ({ Channel := some (.GuildVoiceChannel
            { ChannelID := 60, ChannelGuildID := 1, ChannelName := "general" }) }, none) ∧
    (Channel.GuildVoiceChannel
      { ChannelID := 60, ChannelGuildID := 1, ChannelName := "general" }).Type = 0 := by
  decide

/-- For every tag other than those of `DMChannel` and `GuildVoiceChannel`, a payload
that `UnmarshalJSON` decodes without error yields a channel whose `Type()` is the tag. -/
theorem UnmarshalJSON_type_eq_tag (u u2 : UnmarshalChannel) (data : ChannelPayload)
    (t : ChannelType) (hTag : data.decodeType = .ok t)
    (hDM : t ≠ ChannelTypeDM) (hVoice : t ≠ ChannelTypeGuildVoice)
    (h : u.UnmarshalJSON data = (u2, none)) :
    ∃ channel, u2.Channel = some channel ∧ channel.Type = t := by
  simp only [UnmarshalChannel.UnmarshalJSON, hTag] at h
  cases hS : unmarshalChannelSwitch data t with
  | fail err => simp [hS] at h
  | ok channel =>
    simp only [hS, Prod.mk.injEq, and_true] at h
    refine ⟨channel, by rw [← h], ?_⟩
    simp only [unmarshalChannelSwitch, decodeGuildArm] at hS
    split_ifs at hS with h0 h1 h2
    all_goals first
      | exact absurd h1 hDM
      | exact absurd h2 hVoice
      | (split at hS <;> first
          | (cases hS; simp [Channel.Type, *])
          | cases hS)
/-! ## Claims about the client -/

theorem sendToShard_of_shard (c : clientImpl) (ctx : Context) (guildID : Snowflake)
    (op : Opcode) (d : MessageData) (shard : Gateway)
    (hShard : c.Shard guildID = (some shard, none)) :
    c.sendToShard ctx guildID op d
      = some { err := shard.sendResult ctx op d, calls := [.gatewaySend shard.id ctx op d] } := by
  simp [clientImpl.sendToShard, hShard, Gateway.Send]

theorem Shard_of_shard_manager (c : clientImpl) (shardManager : ShardManager)
    (guildID : Snowflake) (shard : Gateway)
    (hGateway : c.gateway = none) (hManager : c.shardManager = some shardManager)
    (hShard : shardManager.ShardByGuildID guildID = some shard) :
    c.Shard guildID = (some shard, none) := by
  simp [clientImpl.Shard, clientImpl.HasGateway, hGateway, hManager, hShard]

/-- C12 as stated fails: a client that has both a gateway (session 1) and a shard
manager whose `ShardByGuildID(1)` is session 2 gets session 1 from `Shard(1)`, and
`Connect`, `Disconnect`, `RequestMembers` and `RequestMembersWithQuery` for guild 1
send their frame through session 1. -/
theorem C12_gateway_takes_precedence :
    bothClient.HasShardManager = true ∧
    ((sampleShardManager none).ShardByGuildID 1).map (fun g => g.id) = some 2 ∧
    (bothClient.Shard 1).1.map (fun g => g.id) = some 1 ∧
    (bothClient.Connect 0 1 50).map (fun r => r.calls)
      = some [.gatewaySend 1 0 OpcodeVoiceStateUpdate
          (.VoiceStateUpdate { GuildID := 1, ChannelID := some 50 })] ∧
    (bothClient.Disconnect 0 1).map (fun r => r.calls)
      = some [.gatewaySend 1 0 OpcodeVoiceStateUpdate
          (.VoiceStateUpdate { GuildID := 1, ChannelID := none })] ∧
    (bothClient.RequestMembers 0 1 true "n" [7]).map (fun r => r.calls.length) = some 1 ∧
    (bothClient.RequestMembersWithQuery 0 1 true "n" "q" 5).map (fun r => r.calls.length)
      = some 1 := by
  decide

/-- C12 as amended: for a client with a shard manager and no gateway configured, and a
guild id for which `ShardByGuildID` is a session `shard`, `Shard` returns exactly
`shard`, and `Connect`, `Disconnect`, `RequestMembers` and `RequestMembersWithQuery`
each make exactly one call on a subsystem, a `Send` on `shard`. -/
theorem C12_shard_manager_routes_to_owner (c : clientImpl) (shardManager : ShardManager)
    (ctx : Context) (guildID channelID : Snowflake) (presence : Bool) (nonce query : String)
    (limit : Int) (userIDs : List Snowflake) (shard : Gateway)
    (hGateway : c.gateway = none) (hManager : c.shardManager = some shardManager)
    (hShard : shardManager.ShardByGuildID guildID = some shard) :
    c.Shard guildID = (some shard, none) ∧
    (c.Connect ctx guildID channelID).map (fun r => r.calls)
      = some [.gatewaySend shard.id ctx OpcodeVoiceStateUpdate
          (.VoiceStateUpdate { GuildID := guildID, ChannelID := some channelID })] ∧
    (c.Disconnect ctx guildID).map (fun r => r.calls)
      = some [.gatewaySend shard.id ctx OpcodeVoiceStateUpdate
          (.VoiceStateUpdate { GuildID := guildID, ChannelID := none })] ∧
    (c.RequestMembers ctx guildID presence nonce userIDs).map (fun r => r.calls)
      = some [.gatewaySend shard.id ctx OpcodeRequestGuildMembers
          (.RequestGuildMembers
            { GuildID := guildID, Query := none, Limit := none, Presences := presence,
              UserIDs := userIDs, Nonce := nonce })] ∧
    (c.RequestMembersWithQuery ctx guildID presence nonce query limit).map (fun r => r.calls)
      = some [.gatewaySend shard.id ctx OpcodeRequestGuildMembers
          (.RequestGuildMembers
            { GuildID := guildID, Query := some query, Limit := some limit,
              Presences := presence, UserIDs := [], Nonce := nonce })] := by
  have hS := Shard_of_shard_manager c shardManager guildID shard hGateway hManager hShard
  refine ⟨hS, ?_, ?_, ?_, ?_⟩
  · simp only [clientImpl.Connect, sendToShard_of_shard c ctx guildID _ _ shard hS, Option.map_some']
  · simp only [clientImpl.Disconnect, sendToShard_of_shard c ctx guildID _ _ shard hS,
      Option.map_some']
  · simp only [clientImpl.RequestMembers, sendToShard_of_shard c ctx guildID _ _ shard hS,
      Option.map_some']
  · simp only [clientImpl.RequestMembersWithQuery,
      sendToShard_of_shard c ctx guildID _ _ shard hS, Option.map_some']

/-- C12 as amended, at the client that has only the sample shard manager, for guild 1. -/
theorem C12_shard_manager_routes_to_owner_witness :
    (shardedClient none).gateway = none ∧
    (shardedClient none).shardManager = some (sampleShardManager none) ∧
    (sampleShardManager none).ShardByGuildID 1 = some (sampleGateway 2 none) ∧
    ((shardedClient none).Shard 1 = (some (sampleGateway 2 none), none) ∧
    ((shardedClient none).Connect 0 1 50).map (fun r => r.calls)
      = some [.gatewaySend (sampleGateway 2 none).id 0 OpcodeVoiceStateUpdate
          (.VoiceStateUpdate { GuildID := 1, ChannelID := some 50 })] ∧
    ((shardedClient none).Disconnect 0 1).map (fun r => r.calls)
      = some [.gatewaySend (sampleGateway 2 none).id 0 OpcodeVoiceStateUpdate
          (.VoiceStateUpdate { GuildID := 1, ChannelID := none })] ∧
    ((shardedClient none).RequestMembers 0 1 true "n" [7]).map (fun r => r.calls)
      = some [.gatewaySend (sampleGateway 2 none).id 0 OpcodeRequestGuildMembers
          (.RequestGuildMembers
            { GuildID := 1, Query := none, Limit := none, Presences := true,
              UserIDs := [7], Nonce := "n" })] ∧
    ((shardedClient none).RequestMembersWithQuery 0 1 true "n" "q" 5).map (fun r => r.calls)
      = some [.gatewaySend (sampleGateway 2 none).id 0 OpcodeRequestGuildMembers
          (.RequestGuildMembers
            { GuildID := 1, Query := some "q", Limit := some 5, Presences := true,
              UserIDs := [], Nonce := "n" })]) :=
  ⟨rfl, rfl, rfl,
    C12_shard_manager_routes_to_owner (shardedClient none) (sampleShardManager none) 0 1 50 true
      "n" "q" 5 [7] (sampleGateway 2 none) rfl rfl rfl⟩

/-- C13: `Shard` returns either a gateway and no error or no gateway and an error; the
error is `ErrNoGatewayOrShardManager` exactly when neither a gateway nor a shard
manager is configured, and `ErrShardNotFound` exactly when no gateway is configured,
a shard manager is, and its `ShardByGuildID` returns nil for the guild. -/
theorem C13_shard_gateway_or_error (c : clientImpl) (guildID : Snowflake) :
    (((c.Shard guildID).1 ≠ none ∧ (c.Shard guildID).2 = none) ∨
      ((c.Shard guildID).1 = none ∧ (c.Shard guildID).2 ≠ none)) ∧
    ((c.Shard guildID).2 = some .ErrNoGatewayOrShardManager ↔
      (c.HasGateway = false ∧ c.HasShardManager = false)) ∧
    ((c.Shard guildID).2 = some .ErrShardNotFound ↔
      (c.HasGateway = false ∧
        ∃ shardManager, c.shardManager = some shardManager ∧
          shardManager.ShardByGuildID guildID = none)) := by
  cases hG : c.gateway with
  | some gateway =>
    simp [clientImpl.Shard, clientImpl.HasGateway, clientImpl.HasShardManager, hG]
  | none =>
    cases hM : c.shardManager with
    | none => simp [clientImpl.Shard, clientImpl.HasGateway, clientImpl.HasShardManager, hG, hM]
    | some shardManager =>
      cases hS : shardManager.ShardByGuildID guildID with
      | none =>
        simp [clientImpl.Shard, clientImpl.HasGateway, clientImpl.HasShardManager, hG, hM, hS]
      | some shard =>
        simp [clientImpl.Shard, clientImpl.HasGateway, clientImpl.HasShardManager, hG, hM, hS]
/-- C14: a missing subsystem is reported without any call on a subsystem.
`ConnectGateway` and `SetPresence` return `ErrNoGateway` when no gateway is configured,
`ConnectShardManager` returns `ErrNoShardManager` when no shard manager is configured,
`StartHTTPServer` returns `ErrNoHTTPServer` when no HTTP server is configured, each
with no call made; with the subsystem configured, `ConnectShardManager` and
`StartHTTPServer` return nil. -/
theorem C14_missing_subsystem_reported (c : clientImpl) (ctx : Context)
    (presenceUpdate : MessageDataPresenceUpdate) :
    (c.HasGateway = false →
      c.ConnectGateway ctx = { err := some .ErrNoGateway, calls := [] } ∧
      c.SetPresence ctx presenceUpdate = { err := some .ErrNoGateway, calls := [] }) ∧
    (c.HasShardManager = false →
      c.ConnectShardManager ctx = { err := some .ErrNoShardManager, calls := [] }) ∧
    (c.HasHTTPServer = false →
      c.StartHTTPServer = { err := some .ErrNoHTTPServer, calls := [] }) ∧
    (c.HasShardManager = true → (c.ConnectShardManager ctx).err = none) ∧
    (c.HasHTTPServer = true → c.StartHTTPServer.err = none) := by
  refine ⟨?_, ?_, ?_, ?_, ?_⟩
  · intro h
    cases hG : c.gateway with
    | none => simp [clientImpl.ConnectGateway, clientImpl.SetPresence, hG]
    | some g => simp [clientImpl.HasGateway, hG] at h
  · intro h
    cases hM : c.shardManager with
    | none => simp [clientImpl.ConnectShardManager, hM]
    | some m => simp [clientImpl.HasShardManager, hM] at h
  · intro h
    cases hH : c.httpServer with
    | none => simp [clientImpl.StartHTTPServer, hH]
    | some s => simp [clientImpl.HasHTTPServer, hH] at h
  · intro h
    cases hM : c.shardManager with
    | none => simp [clientImpl.HasShardManager, hM] at h
    | some m => simp [clientImpl.ConnectShardManager, hM]
  · intro h
    cases hH : c.httpServer with
    | none => simp [clientImpl.HasHTTPServer, hH] at h
    | some s => simp [clientImpl.StartHTTPServer, hH]

/-- C14 at a client without any subsystem and at clients that have the subsystem. -/
theorem C14_missing_subsystem_reported_witness :
    bareClient.ConnectGateway 0 = { err := some .ErrNoGateway, calls := [] } ∧
    bareClient.SetPresence 0 samplePresence = { err := some .ErrNoGateway, calls := [] } ∧
    bareClient.ConnectShardManager 0 = { err := some .ErrNoShardManager, calls := [] } ∧
    bareClient.StartHTTPServer = { err := some .ErrNoHTTPServer, calls := [] } ∧
    ((shardedClient none).ConnectShardManager 0).err = none ∧
    (gatewayClient none).StartHTTPServer.err = none :=
  ⟨((C14_missing_subsystem_reported bareClient 0 samplePresence).1 rfl).1,
    ((C14_missing_subsystem_reported bareClient 0 samplePresence).1 rfl).2,
    (C14_missing_subsystem_reported bareClient 0 samplePresence).2.1 rfl,
    (C14_missing_subsystem_reported bareClient 0 samplePresence).2.2.1 rfl,
    (C14_missing_subsystem_reported (shardedClient none) 0 samplePresence).2.2.2.1 rfl,
    (C14_missing_subsystem_reported (gatewayClient none) 0 samplePresence).2.2.2.2 rfl⟩

/-- C15: `SetPresenceForShard` returns `ErrNoShardManager` without a shard manager,
`ErrShardNotFound` when the shard manager has no shard with the id, both with no call
made, and otherwise makes exactly one call, `Send` of a presence update carrying the
given payload on the shard with that id, and returns the result of that `Send`. -/
theorem C15_set_presence_for_shard (c : clientImpl) (ctx : Context) (shardId : Int)
    (presenceUpdate : MessageDataPresenceUpdate) :
    (c.shardManager = none →
      c.SetPresenceForShard ctx shardId presenceUpdate
        = { err := some .ErrNoShardManager, calls := [] }) ∧
    (∀ shardManager, c.shardManager = some shardManager →
      shardManager.Shard shardId = none →
      c.SetPresenceForShard ctx shardId presenceUpdate
        = { err := some .ErrShardNotFound, calls := [] }) ∧
    (∀ shardManager shard, c.shardManager = some shardManager →
      shardManager.Shard shardId = some shard →
      c.SetPresenceForShard ctx shardId presenceUpdate
        = { err := shard.sendResult ctx OpcodePresenceUpdate (.PresenceUpdate presenceUpdate),
            calls := [.gatewaySend shard.id ctx OpcodePresenceUpdate
              (.PresenceUpdate presenceUpdate)] }) := by
  refine ⟨?_, ?_, ?_⟩
  · intro h
    simp [clientImpl.SetPresenceForShard, h]
  · intro shardManager hM hS
    simp [clientImpl.SetPresenceForShard, hM, hS]
  · intro shardManager shard hM hS
    simp [clientImpl.SetPresenceForShard, hM, hS, Gateway.Send]

/-- C15 at a client without shard manager, at an unknown shard id and at shard 0 of
the sample shard manager, whose session is session 2. -/
theorem C15_set_presence_for_shard_witness :
    bareClient.SetPresenceForShard 0 0 samplePresence
      = { err := some .ErrNoShardManager, calls := [] } ∧
    (shardedClient none).SetPresenceForShard 0 4 samplePresence
      = { err := some .ErrShardNotFound, calls := [] } ∧
    (shardedClient (some (.other 1))).SetPresenceForShard 0 0 samplePresence
      = { err := some (.other 1),
          calls := [.gatewaySend 2 0 OpcodePresenceUpdate (.PresenceUpdate samplePresence)] } :=
  ⟨(C15_set_presence_for_shard bareClient 0 0 samplePresence).1 rfl,
    (C15_set_presence_for_shard (shardedClient none) 0 4 samplePresence).2.1
      (sampleShardManager none) rfl rfl,
    (C15_set_presence_for_shard (shardedClient (some (.other 1))) 0 0 samplePresence).2.2
      (sampleShardManager (some (.other 1))) (sampleGateway 2 (some (.other 1))) rfl rfl⟩

theorem sendToShard_calls (c : clientImpl) (ctx : Context) (guildID : Snowflake) (op : Opcode)
    (d : MessageData) (r : Run) (call : Call) (h : c.sendToShard ctx guildID op d = some r)
    (hCall : call ∈ r.calls) : ∃ gateway, call = .gatewaySend gateway ctx op d := by
  unfold clientImpl.sendToShard at h
  split at h
  · simp only [Option.some.injEq] at h
    subst h
    simp at hCall
  · simp only [Option.some.injEq, Gateway.Send] at h
    subst h
    simp only [List.mem_singleton] at hCall
    exact ⟨_, hCall⟩
  · simp at h

/-- C16: every frame that `Connect(ctx, g, c)` sends has opcode `OpcodeVoiceStateUpdate`
(4), `GuildID` `g` and a `ChannelID` that is present and equal to `c`, and every frame
that `Disconnect(ctx, g)` sends has that opcode, `GuildID` `g` and no `ChannelID`; each
sends exactly one such frame, on the session that `Shard(g)` yields, whenever `Shard(g)`
yields one. -/
theorem C16_voice_state_frames (c : clientImpl) (ctx : Context)
    (guildID channelID : Snowflake) :
    (∀ r call, c.Connect ctx guildID channelID = some r → call ∈ r.calls →
      ∃ gateway, call = .gatewaySend gateway ctx 4
        (.VoiceStateUpdate { GuildID := guildID, ChannelID := some channelID })) ∧
    (∀ r call, c.Disconnect ctx guildID = some r → call ∈ r.calls →
      ∃ gateway, call = .gatewaySend gateway ctx 4
        (.VoiceStateUpdate { GuildID := guildID, ChannelID := none })) ∧
    (∀ shard, c.Shard guildID = (some shard, none) →
      (c.Connect ctx guildID channelID).map (fun r => r.calls)
        = some [.gatewaySend shard.id ctx 4
            (.VoiceStateUpdate { GuildID := guildID, ChannelID := some channelID })] ∧
      (c.Disconnect ctx guildID).map (fun r => r.calls)
        = some [.gatewaySend shard.id ctx 4
            (.VoiceStateUpdate { GuildID := guildID, ChannelID := none })]) := by
  refine ⟨?_, ?_, ?_⟩
  · intro r call h hCall
    exact sendToShard_calls c ctx guildID _ _ r call h hCall
  · intro r call h hCall
    exact sendToShard_calls c ctx guildID _ _ r call h hCall
  · intro shard hShard
    constructor
    · simp only [clientImpl.Connect, sendToShard_of_shard c ctx guildID _ _ shard hShard,
        Option.map_some', OpcodeVoiceStateUpdate]
    · simp only [clientImpl.Disconnect, sendToShard_of_shard c ctx guildID _ _ shard hShard,
        Option.map_some', OpcodeVoiceStateUpdate]

/-- C16 at the client with the gateway session 1, guild 1 and channel 50. -/
theorem C16_voice_state_frames_witness :
    (((gatewayClient none).Connect 0 1 50).map (fun r => r.calls)
      = some [.gatewaySend (sampleGateway 1 none).id 0 4
          (.VoiceStateUpdate { GuildID := 1, ChannelID := some 50 })] ∧
    ((gatewayClient none).Disconnect 0 1).map (fun r => r.calls)
      = some [.gatewaySend (sampleGateway 1 none).id 0 4
          (.VoiceStateUpdate { GuildID := 1, ChannelID := none })]) :=
  (C16_voice_state_frames (gatewayClient none) 0 1 50).2.2 (sampleGateway 1 none) rfl

/-- C17: every frame that `RequestMembers` sends has opcode `OpcodeRequestGuildMembers`
(8) and carries the guild id, the presence flag, the nonce and the user ids in the
given order, with no query and no limit; every frame that `RequestMembersWithQuery`
sends has that opcode and carries the guild id, the presence flag, the nonce, the
query and the limit, with no user ids; each sends exactly one such frame, on the
session that `Shard(g)` yields, whenever `Shard(g)` yields one. -/
theorem C17_request_members_frames (c : clientImpl) (ctx : Context) (guildID : Snowflake)
    (presence : Bool) (nonce query : String) (limit : Int) (userIDs : List Snowflake) :
    (∀ r call, c.RequestMembers ctx guildID presence nonce userIDs = some r →
      call ∈ r.calls →
      ∃ gateway, call = .gatewaySend gateway ctx 8
        (.RequestGuildMembers
          { GuildID := guildID, Query := none, Limit := none, Presences := presence,
            UserIDs := userIDs, Nonce := nonce })) ∧
    (∀ r call, c.RequestMembersWithQuery ctx guildID presence nonce query limit = some r →
      call ∈ r.calls →
      ∃ gateway, call = .gatewaySend gateway ctx 8
        (.RequestGuildMembers
          { GuildID := guildID, Query := some query, Limit := some limit,
            Presences := presence, UserIDs := [], Nonce := nonce })) ∧
    (∀ shard, c.Shard guildID = (some shard, none) →
      (c.RequestMembers ctx guildID presence nonce userIDs).map (fun r => r.calls)
        = some [.gatewaySend shard.id ctx 8
            (.RequestGuildMembers
              { GuildID := guildID, Query := none, Limit := none, Presences := presence,
                UserIDs := userIDs, Nonce := nonce })] ∧
      (c.RequestMembersWithQuery ctx guildID presence nonce query limit).map
          (fun r => r.calls)
        = some [.gatewaySend shard.id ctx 8
            (.RequestGuildMembers
              { GuildID := guildID, Query := some query, Limit := some limit,
                Presences := presence, UserIDs := [], Nonce := nonce })]) := by
  refine ⟨?_, ?_, ?_⟩
  · intro r call h hCall
    exact sendToShard_calls c ctx guildID _ _ r call h hCall
  · intro r call h hCall
    exact sendToShard_calls c ctx guildID _ _ r call h hCall
  · intro shard hShard
    constructor
    · simp only [clientImpl.RequestMembers, sendToShard_of_shard c ctx guildID _ _ shard hShard,
        Option.map_some', OpcodeRequestGuildMembers]
    · simp only [clientImpl.RequestMembersWithQuery,
        sendToShard_of_shard c ctx guildID _ _ shard hShard, Option.map_some',
        OpcodeRequestGuildMembers]

/-- C17 at the client with the sample shard manager, guild 1 and three user ids. -/
theorem C17_request_members_frames_witness :
    (((shardedClient none).RequestMembers 0 1 true "n" [7, 3, 5]).map (fun r => r.calls)
      = some [.gatewaySend (sampleGateway 2 none).id 0 8
          (.RequestGuildMembers
            { GuildID := 1, Query := none, Limit := none, Presences := true,
              UserIDs := [7, 3, 5], Nonce := "n" })] ∧
    ((shardedClient none).RequestMembersWithQuery 0 1 true "n" "q" 5).map (fun r => r.calls)
      = some [.gatewaySend (sampleGateway 2 none).id 0 8
          (.RequestGuildMembers
            { GuildID := 1, Query := some "q", Limit := some 5, Presences := true,
              UserIDs := [], Nonce := "n" })]) :=
  (C17_request_members_frames (shardedClient none) 0 1 true "n" "q" 5 [7, 3, 5]).2.2
    (sampleGateway 2 none) rfl

/-- C18: the error of the underlying session is returned unchanged. With a gateway
configured, `ConnectGateway` returns what its `Open` returns and `SetPresence` what its
`Send` returns; when `Shard(g)` yields a session, `Connect`, `Disconnect`,
`RequestMembers` and `RequestMembersWithQuery` return what its `Send` of their frame
returns; when the shard manager has the shard, `SetPresenceForShard` returns what its
`Send` returns. In particular each returns nil exactly when the underlying call does. -/
theorem C18_session_error_unchanged (c : clientImpl) (ctx : Context)
    (guildID channelID : Snowflake) (presence : Bool) (nonce query : String) (limit : Int)
    (userIDs : List Snowflake) (shardId : Int) (presenceUpdate : MessageDataPresenceUpdate) :
    (∀ gateway, c.gateway = some gateway →
      (c.ConnectGateway ctx).err = gateway.openResult ctx ∧
      (c.SetPresence ctx presenceUpdate).err
        = gateway.sendResult ctx OpcodePresenceUpdate (.PresenceUpdate presenceUpdate)) ∧
    (∀ shard, c.Shard guildID = (some shard, none) →
      (c.Connect ctx guildID channelID).map (fun r => r.err)
        = some (shard.sendResult ctx OpcodeVoiceStateUpdate
            (.VoiceStateUpdate { GuildID := guildID, ChannelID := some channelID })) ∧
      (c.Disconnect ctx guildID).map (fun r => r.err)
        = some (shard.sendResult ctx OpcodeVoiceStateUpdate
            (.VoiceStateUpdate { GuildID := guildID, ChannelID := none })) ∧
      (c.RequestMembers ctx guildID presence nonce userIDs).map (fun r => r.err)
        = some (shard.sendResult ctx OpcodeRequestGuildMembers
            (.RequestGuildMembers
              { GuildID := guildID, Query := none, Limit := none, Presences := presence,
                UserIDs := userIDs, Nonce := nonce })) ∧
      (c.RequestMembersWithQuery ctx guildID presence nonce query limit).map (fun r => r.err)
        = some (shard.sendResult ctx OpcodeRequestGuildMembers
            (.RequestGuildMembers
              { GuildID := guildID, Query := some query, Limit := some limit,
                Presences := presence, UserIDs := [], Nonce := nonce }))) ∧
    (∀ shardManager shard, c.shardManager = some shardManager →
      shardManager.Shard shardId = some shard →
      (c.SetPresenceForShard ctx shardId presenceUpdate).err
        = shard.sendResult ctx OpcodePresenceUpdate (.PresenceUpdate presenceUpdate)) := by
  refine ⟨?_, ?_, ?_⟩
  · intro gateway hG
    simp [clientImpl.ConnectGateway, clientImpl.SetPresence, hG, Gateway.Open, Gateway.Send]
  · intro shard hS
    refine ⟨?_, ?_, ?_, ?_⟩
    · simp only [clientImpl.Connect, sendToShard_of_shard c ctx guildID _ _ shard hS,
        Option.map_some']
    · simp only [clientImpl.Disconnect, sendToShard_of_shard c ctx guildID _ _ shard hS,
        Option.map_some']
    · simp only [clientImpl.RequestMembers, sendToShard_of_shard c ctx guildID _ _ shard hS,
        Option.map_some']
    · simp only [clientImpl.RequestMembersWithQuery,
        sendToShard_of_shard c ctx guildID _ _ shard hS, Option.map_some']
  · intro shardManager shard hM hS
    simp [clientImpl.SetPresenceForShard, hM, hS, Gateway.Send]

/-- C18 at sessions that fail with the error `other 9` (say, a cancelled context) and
at sessions that succeed. -/
theorem C18_session_error_unchanged_witness :
    ((gatewayClient (some (.other 9))).ConnectGateway 0).err = some (.other 9) ∧
    ((gatewayClient (some (.other 9))).SetPresence 0 samplePresence).err = some (.other 9) ∧
    ((gatewayClient none).ConnectGateway 0).err = none ∧
    ((shardedClient (some (.other 9))).Connect 0 1 50).map (fun r => r.err)
      = some (some (.other 9)) ∧
    ((shardedClient none).Disconnect 0 1).map (fun r => r.err) = some none ∧
    ((shardedClient (some (.other 9))).SetPresenceForShard 0 0 samplePresence).err
      = some (.other 9) :=
  ⟨((C18_session_error_unchanged (gatewayClient (some (.other 9))) 0 1 50 true "n" "q" 5 [7] 0
      samplePresence).1 (sampleGateway 1 (some (.other 9))) rfl).1,
    ((C18_session_error_unchanged (gatewayClient (some (.other 9))) 0 1 50 true "n" "q" 5 [7] 0
      samplePresence).1 (sampleGateway 1 (some (.other 9))) rfl).2,
    ((C18_session_error_unchanged (gatewayClient none) 0 1 50 true "n" "q" 5 [7] 0
      samplePresence).1 (sampleGateway 1 none) rfl).1,
    ((C18_session_error_unchanged (shardedClient (some (.other 9))) 0 1 50 true "n" "q" 5 [7] 0
      samplePresence).2.1 (sampleGateway 2 (some (.other 9))) rfl).1,
    ((C18_session_error_unchanged (shardedClient none) 0 1 50 true "n" "q" 5 [7] 0
      samplePresence).2.1 (sampleGateway 2 none) rfl).2.1,
    (C18_session_error_unchanged (shardedClient (some (.other 9))) 0 1 50 true "n" "q" 5 [7] 0
      samplePresence).2.2 (sampleShardManager (some (.other 9)))
      (sampleGateway 2 (some (.other 9))) rfl rfl⟩
/-! ## Claims about the cache configuration -/

theorem withCacheFlagsLoop_testBit (cacheFlags : List CacheFlags) (flags : CacheFlags) (i : Nat) :
    (withCacheFlagsLoop flags cacheFlags).testBit i
      = (flags.testBit i || cacheFlags.any (fun flag => flag.testBit i)) := by
  induction cacheFlags generalizing flags with
  | nil => simp [withCacheFlagsLoop]
  | cons flag rest ih =>
    simp only [withCacheFlagsLoop, ih, CacheFlags.Add, Nat.testBit_or, List.any_cons,
      Bool.or_assoc]

theorem withCacheFlagsLoop_perm (xs ys : List CacheFlags) (h : xs.Perm ys) :
    withCacheFlagsLoop 0 xs = withCacheFlagsLoop 0 ys := by
  apply Nat.eq_of_testBit_eq
  intro i
  rw [withCacheFlagsLoop_testBit, withCacheFlagsLoop_testBit]
  congr 1
  rw [Bool.eq_iff_iff]
  simp only [List.any_eq_true]
  constructor
  · rintro ⟨x, hx, hb⟩
    exact ⟨x, h.subset hx, hb⟩
  · rintro ⟨x, hx, hb⟩
    exact ⟨x, h.symm.subset hx, hb⟩

/-- C19: `WithCacheFlags(f1, ..., fn)` sets `CacheFlags` to the bitwise union of its
arguments (a bit is set exactly when some argument has it), whatever the config held
before and in whatever order the arguments come, to the empty set when there is no
argument, and leaves both policies as they were; `WithMemberCachePolicy` and
`WithMessageCachePolicy` replace their own field and nothing else. -/
theorem C19_cache_config_options (config config2 : CacheConfig) (cacheFlags : List CacheFlags)
    (memberCachePolicy : CachePolicy Member) (messageCachePolicy : CachePolicy Message) :
    (∀ i, ((WithCacheFlags cacheFlags config).CacheFlags).testBit i
      = cacheFlags.any (fun flag => flag.testBit i)) ∧
    (WithCacheFlags cacheFlags config).CacheFlags
      = cacheFlags.foldl (fun acc flag => acc ||| flag) 0 ∧
    (∀ permuted : List CacheFlags, cacheFlags.Perm permuted →
      (WithCacheFlags permuted config2).CacheFlags
        = (WithCacheFlags cacheFlags config).CacheFlags) ∧
    (WithCacheFlags [] config).CacheFlags = 0 ∧
    (WithCacheFlags cacheFlags config).MemberCachePolicy = config.MemberCachePolicy ∧
    (WithCacheFlags cacheFlags config).MessageCachePolicy = config.MessageCachePolicy ∧
    WithMemberCachePolicy memberCachePolicy config
      = { CacheFlags := config.CacheFlags, MemberCachePolicy := memberCachePolicy,
          MessageCachePolicy := config.MessageCachePolicy } ∧
    WithMessageCachePolicy messageCachePolicy config
      = { CacheFlags := config.CacheFlags, MemberCachePolicy := config.MemberCachePolicy,
          MessageCachePolicy := messageCachePolicy } := by
  refine ⟨?_, ?_, ?_, rfl, rfl, rfl, rfl, rfl⟩
  · intro i
    simp [WithCacheFlags, withCacheFlagsLoop_testBit]
  · simp only [WithCacheFlags]
    generalize (0 : CacheFlags) = acc
    induction cacheFlags generalizing acc with
    | nil => rfl
    | cons flag rest ih => simp only [withCacheFlagsLoop, CacheFlags.Add, List.foldl_cons, ih]
  · intro permuted hPerm
    simp only [WithCacheFlags]
    exact (withCacheFlagsLoop_perm cacheFlags permuted hPerm).symm
/-! ## Claims about the listener adapter -/

theorem OnEvent_of_field (l : ListenerAdapter) (field : HandlerField) (content : Nat) :
    ListenerAdapter.OnEvent l { type := field.eventType, content := content }
      = callIfSet l field { type := field.eventType, content := content } := by
  cases field <;> rfl

theorem call_mem_callIfSet (l : ListenerAdapter) (field target : HandlerField)
    (event called : Event) (h : Effect.call field called ∈ callIfSet l target event) :
    field = target ∧ called = event := by
  unfold callIfSet at h
  split at h
  · simpa using h
  · simp at h

theorem call_mem_OnEvent (l : ListenerAdapter) (event called : Event) (field : HandlerField)
    (h : Effect.call field called ∈ ListenerAdapter.OnEvent l event) :
    field.eventType = event.type ∧ called = event := by
  obtain ⟨type, content⟩ := event
  cases type
  case Other => simp [ListenerAdapter.OnEvent] at h
  all_goals
    obtain ⟨hf, he⟩ := call_mem_callIfSet l field _ _ called h
    subst hf
    exact ⟨rfl, he⟩

/-- C20: for an event whose dynamic type is the one a handler field takes, `OnEvent`
calls that field exactly once with that same event and does nothing else when the
field is set, and does nothing at all when the field is nil; whatever the event, a
handler field is only ever called on an event of the one type it takes, with the
event that `OnEvent` received; and no two handler fields take the same type. -/
theorem C20_on_event_dispatch (l : ListenerAdapter) (event : Event) :
    (∀ field : HandlerField, field.eventType = event.type →
      ListenerAdapter.OnEvent l event = if l field then [.call field event] else []) ∧
    (∀ (field : HandlerField) (called : Event),
      Effect.call field called ∈ ListenerAdapter.OnEvent l event →
      field.eventType = event.type ∧ called = event) ∧
    (∀ field field2 : HandlerField, field.eventType = field2.eventType → field = field2) := by
  refine ⟨?_, ?_, ?_⟩
  · intro field hType
    obtain ⟨type, content⟩ := event
    simp only at hType
    subst hType
    exact OnEvent_of_field l field content
  · intro field called h
    exact call_mem_OnEvent l event called field h
  · intro field field2 h
    have h1 := OnEvent_of_field (fun _ => true) field 0
    have h2 := OnEvent_of_field (fun _ => true) field2 0
    rw [h] at h1
    rw [h1] at h2
    simpa [callIfSet] using h2

/-- C20 at a heartbeat event, with the heartbeat handler set and with it nil, and at
an invite event, whose handler field is `OnGuildInviteCreate`. -/
theorem C20_on_event_dispatch_witness :
    ListenerAdapter.OnEvent (fun _ => true) { type := .Heartbeat, content := 4 }
      = [.call .OnHeartbeat { type := .Heartbeat, content := 4 }] ∧
    ListenerAdapter.OnEvent (fun field => decide (field ≠ .OnHeartbeat))
      { type := .Heartbeat, content := 4 } = [] ∧
    ListenerAdapter.OnEvent (fun _ => true) { type := .InviteCreate, content := 4 }
      = [.call .OnGuildInviteCreate { type := .InviteCreate, content := 4 }] :=
  ⟨(C20_on_event_dispatch (fun _ => true) { type := .Heartbeat, content := 4 }).1
      .OnHeartbeat rfl,
    (C20_on_event_dispatch (fun field => decide (field ≠ .OnHeartbeat))
      { type := .Heartbeat, content := 4 }).1 .OnHeartbeat rfl,
    (C20_on_event_dispatch (fun _ => true) { type := .InviteCreate, content := 4 }).1
      .OnGuildInviteCreate rfl⟩

/-! ## Claims about `GetOS` -/

theorem not_windows_and_darwin (os : String) (hW : HasPrefix os "windows" = true)
    (hD : HasPrefix os "darwin" = true) : False := by
  unfold HasPrefix at hW hD
  have e1 : "windows".data = ['w', 'i', 'n', 'd', 'o', 'w', 's'] := rfl
  have e2 : "darwin".data = ['d', 'a', 'r', 'w', 'i', 'n'] := rfl
  rw [e1] at hW
  rw [e2] at hD
  cases h : os.data with
  | nil => simp [h, List.isPrefixOf] at hW
  | cons c rest =>
    simp only [h, List.isPrefixOf, Bool.and_eq_true, beq_iff_eq] at hW hD
    have h1 := hW.1
    have h2 := hD.1
    rw [← h1] at h2
    exact absurd h2 (by decide)

/-- C21: for every value of the operating-system name `GetOS` returns "windows",
"darwin" or "linux": "windows" exactly when the name starts with "windows", "darwin"
exactly when it starts with "darwin", and "linux" exactly when it starts with
neither. -/
theorem C21_get_os (os : String) :
    (GetOS os = "windows" ∨ GetOS os = "darwin" ∨ GetOS os = "linux") ∧
    (GetOS os = "windows" ↔ HasPrefix os "windows" = true) ∧
    (GetOS os = "darwin" ↔ HasPrefix os "darwin" = true) ∧
    (GetOS os = "linux" ↔ (HasPrefix os "windows" = false ∧ HasPrefix os "darwin" = false)) := by
  simp only [GetOS]
  cases hW : HasPrefix os "windows" <;> cases hD : HasPrefix os "darwin"
  · simp [hW, hD]
  · simp [hW, hD]
  · simp [hW, hD]
  · exact absurd (not_windows_and_darwin os hW hD) id

/-- C21 at the names Go reports on the three platforms and at two other names. -/
theorem C21_get_os_witness :
    GetOS "windows" = "windows" ∧ GetOS "darwin" = "darwin" ∧ GetOS "linux" = "linux" ∧
    GetOS "freebsd" = "linux" ∧ GetOS "win" = "linux" ∧
    HasPrefix "windows" "windows" = true ∧ HasPrefix "freebsd" "windows" = false :=
  ⟨(C21_get_os "windows").2.1.2 (by decide), (C21_get_os "darwin").2.2.1.2 (by decide),
    (C21_get_os "linux").2.2.2.2 (by decide), (C21_get_os "freebsd").2.2.2.2 (by decide),
    (C21_get_os "win").2.2.2.2 (by decide), by decide, by decide⟩
/-! ## Claims about closing the client -/

/-- C22: `Close(ctx)` calls `Close(ctx)` once on each configured subsystem among REST,
gateway, shard manager and HTTP server, in that order, and makes no other call: the
calls are exactly those of the configured subsystems, each occurs once, and they come
in increasing rank; with no subsystem configured it makes no call at all. -/
theorem C22_close_each_subsystem_once (c : clientImpl) (ctx : Context) :
    c.Close ctx
      = (c.restServices.toList.map (fun _ => CloseCall.restClose ctx))
        ++ (c.gateway.toList.map (fun gateway => CloseCall.gatewayClose gateway.id ctx))
        ++ (c.shardManager.toList.map (fun _ => CloseCall.shardManagerClose ctx))
        ++ (c.httpServer.toList.map (fun _ => CloseCall.httpServerClose ctx)) ∧
    (c.Close ctx).Pairwise (fun a b => a.rank < b.rank) ∧
    (c.Close ctx).Nodup ∧
    (c.restServices = none → c.gateway = none → c.shardManager = none → c.httpServer = none →
      c.Close ctx = []) := by
  obtain ⟨rest, manager, gateway, server⟩ := c
  cases rest <;> cases manager <;> cases gateway <;> cases server <;>
    simp [clientImpl.Close, CloseCall.rank]

/-- C22 at a client with all four subsystems and at a client with none. -/
theorem C22_close_each_subsystem_once_witness :
    fullClient.Close 7
      = [.restClose 7, .gatewayClose 1 7, .shardManagerClose 7, .httpServerClose 7] ∧
    bareClient.Close 7 = [] ∧
    (shardedClient none).Close 7 = [.shardManagerClose 7] :=
  ⟨(C22_close_each_subsystem_once fullClient 7).1,
    (C22_close_each_subsystem_once bareClient 7).2.2.2 rfl rfl rfl rfl,
    (C22_close_each_subsystem_once (shardedClient none) 7).1⟩

/-! ## Claims about encoding and decoding channels -/

/-- C23, evaluated where the code departs from it: the object that `MarshalJSON`
writes for a `DMChannel` and for a `GuildVoiceChannel` carries the type tag 0, because
their `Type()` returns `ChannelTypeGuildText`; decoding it succeeds and yields a
`GuildTextChannel` with the same id and name, not a channel of the variant encoded. -/
theorem C23_round_trip_changes_variant :
    (Channel.DMChannel sampleDMChannel).MarshalJSON.type = 0 ∧
    roundTrip (.DMChannel sampleDMChannel)
      = ({ Channel := some (.GuildTextChannel
            { ChannelID := 70, ChannelGuildID := 0, ChannelName := "" }) }, none) ∧
    (Channel.DMChannel sampleDMChannel).variant = .DMChannel ∧
    (Channel.GuildTextChannel
      { ChannelID := 70, ChannelGuildID := 0, ChannelName := "" }).variant = .GuildTextChannel ∧
    sampleVoiceChannel.MarshalJSON.type = 0 ∧
    roundTrip sampleVoiceChannel
      = ({ Channel := some (.GuildTextChannel
            { ChannelID := 61, ChannelGuildID := 1, ChannelName := "lounge" }) }, none) ∧
    sampleVoiceChannel.variant = .GuildVoiceChannel := by
  decide

/-- For the seven variants other than `DMChannel` and `GuildVoiceChannel`, decoding what
`MarshalJSON` writes succeeds and gives the channel back. -/
theorem roundTrip_of_other_variant (c : Channel) (hDM : c.variant ≠ .DMChannel)
    (hVoice : c.variant ≠ .GuildVoiceChannel) :
    roundTrip c = ({ Channel := some c }, none) := by
  cases c <;> first
    | exact absurd rfl hDM
    | exact absurd rfl hVoice
    | rfl

/-- Whatever the variant, decoding what `MarshalJSON` writes succeeds and yields a
channel with the same id and the same name. -/
theorem roundTrip_id_name (c : Channel) :
    ∃ decoded, roundTrip c = ({ Channel := some decoded }, none) ∧
      decoded.ID = c.ID ∧ decoded.Name = c.Name := by
  cases c <;> exact ⟨_, rfl, rfl, rfl⟩

theorem unmarshalChannelSwitch_unknown (data : ChannelPayload) (t : ChannelType)
    (h : t ∉ ([0, 1, 2, 4, 5, 10, 11, 12, 13] : List ChannelType)) :
    unmarshalChannelSwitch data t = .fail (.errorf "unkown channel with type %d received" t) := by
  simp only [List.mem_cons, List.mem_singleton, List.not_mem_nil, or_false, not_or] at h
  obtain ⟨h0, h1, h2, h4, h5, h10, h11, h12, h13⟩ := h
  simp [unmarshalChannelSwitch, ChannelTypeGuildText, ChannelTypeDM, ChannelTypeGuildVoice,
    ChannelTypeGuildCategory, ChannelTypeGuildNews, ChannelTypeGuildNewsThread,
    ChannelTypeGuildPublicThread, ChannelTypeGuildPrivateThread, ChannelTypeGuildStageVoice,
    h0, h1, h2, h4, h5, h10, h11, h12, h13]

/-- C24: `UnmarshalJSON` returns an error for every payload whose type tag is not one
of 0, 1, 2, 4, 5, 10, 11, 12, 13, and whenever it returns an error, for an unknown tag
or a failing decode, the receiver holds the channel it held before. -/
theorem C24_unknown_tag_is_error (u : UnmarshalChannel) (data : ChannelPayload) :
    (∀ t, data.decodeType = .ok t →
      t ∉ ([0, 1, 2, 4, 5, 10, 11, 12, 13] : List ChannelType) →
      (u.UnmarshalJSON data).2 ≠ none) ∧
    ((u.UnmarshalJSON data).2 ≠ none → (u.UnmarshalJSON data).1 = u) := by
  constructor
  · intro t hTag hUnknown
    simp [UnmarshalChannel.UnmarshalJSON, hTag, unmarshalChannelSwitch_unknown data t hUnknown]
  · intro hErr
    unfold UnmarshalChannel.UnmarshalJSON at hErr ⊢
    cases hT : data.decodeType with
    | fail err => simp
    | ok t =>
      cases hS : unmarshalChannelSwitch data t with
      | fail err => simp [hS]
      | ok channel => simp [hT, hS] at hErr

/-- C24 at the tag 3 of a group DM and the unused tag 7, on a receiver that holds a
channel, and at a known tag whose body fails to decode. -/
theorem C24_unknown_tag_is_error_witness :
    (UnmarshalChannel.UnmarshalJSON { Channel := some sampleVoiceChannel }
      (samplePayload ChannelTypeGroupDM)).2 ≠ none ∧
    (UnmarshalChannel.UnmarshalJSON { Channel := some sampleVoiceChannel } (samplePayload 7)).2
      ≠ none ∧
    (UnmarshalChannel.UnmarshalJSON { Channel := some sampleVoiceChannel } (samplePayload 7)).1
      = { Channel := some sampleVoiceChannel } ∧
    (UnmarshalChannel.UnmarshalJSON { Channel := some sampleVoiceChannel } (brokenPayload 4)).1
      = { Channel := some sampleVoiceChannel } :=
  ⟨(C24_unknown_tag_is_error { Channel := some sampleVoiceChannel }
      (samplePayload ChannelTypeGroupDM)).1 3 rfl (by decide),
    (C24_unknown_tag_is_error { Channel := some sampleVoiceChannel } (samplePayload 7)).1 7 rfl
      (by decide),
    (C24_unknown_tag_is_error { Channel := some sampleVoiceChannel } (samplePayload 7)).2
      (by decide),
    (C24_unknown_tag_is_error { Channel := some sampleVoiceChannel } (brokenPayload 4)).2
      (by decide)⟩
/-! ## Claims about the overwrite lookups -/

/-- C25, evaluated where the code departs from it: on a channel without any overwrite,
and on a channel that has overwrites but none for the id, `getPermissionOverwrite`
returns the nil interface and `RolePermissionOverwrite` and `MemberPermissionOverwrite`
panic on their type assertion instead of returning nil; when overwrites match, the
first one of the list whose type and id both match is returned. -/
theorem C25_absent_overwrite_panics :
    getPermissionOverwrite (sampleChannel []) .PermissionOverwriteTypeRole 5 = none ∧
    (sampleChannel []).RolePermissionOverwrite 5 = none ∧
    (sampleChannel []).RolePermissionOverwrite 5 ≠ some none ∧
    (sampleChannel []).MemberPermissionOverwrite 2 = none ∧
    (sampleChannel []).MemberPermissionOverwrite 2 ≠ some none ∧
    neutralChannel.RolePermissionOverwrite 5 = none ∧
    neutralChannel.MemberPermissionOverwrite 9 = none ∧
    (sampleChannel [.member ⟨5, 1, 0⟩, .role ⟨5, 2, 0⟩, .role ⟨5, 4, 0⟩]).RolePermissionOverwrite 5
      = some (some ⟨5, 2, 0⟩) ∧
    (sampleChannel [.role ⟨2, 1, 0⟩, .member ⟨2, 2, 0⟩, .member ⟨2, 4, 0⟩]).MemberPermissionOverwrite 2
      = some (some ⟨2, 2, 0⟩) := by
  decide

theorem getPermissionOverwriteLoop_none (overwriteType : PermissionOverwriteType)
    (id : Snowflake) (overwrites : List PermissionOverwrite)
    (h : ∀ o ∈ overwrites, ¬(o.Type = overwriteType ∧ o.ID = id)) :
    getPermissionOverwriteLoop overwriteType id overwrites = none := by
  induction overwrites with
  | nil => rfl
  | cons o rest ih =>
    have hO := h o (List.mem_cons_self _ _)
    simp only [getPermissionOverwriteLoop, hO, if_false]
    exact ih (fun x hx => h x (List.mem_cons_of_mem _ hx))

theorem getPermissionOverwriteLoop_first (overwriteType : PermissionOverwriteType)
    (id : Snowflake) (before after : List PermissionOverwrite) (o : PermissionOverwrite)
    (hBefore : ∀ x ∈ before, ¬(x.Type = overwriteType ∧ x.ID = id))
    (hO : o.Type = overwriteType ∧ o.ID = id) :
    getPermissionOverwriteLoop overwriteType id (before ++ o :: after) = some o := by
  induction before with
  | nil => simp [getPermissionOverwriteLoop, hO]
  | cons x rest ih =>
    have hX := hBefore x (List.mem_cons_self _ _)
    simp only [List.cons_append, getPermissionOverwriteLoop, hX, if_false]
    exact ih (fun y hy => hBefore y (List.mem_cons_of_mem _ hy))

/-- Whenever the channel has no role overwrite for the id, `RolePermissionOverwrite`
panics, and whenever it has no member overwrite for the id, `MemberPermissionOverwrite`
panics. -/
theorem overwrite_lookup_panics_of_absent (c : GuildChannel) (id : Snowflake) :
    ((∀ o ∈ c.ChannelPermissionOverwrites,
        ¬(o.Type = .PermissionOverwriteTypeRole ∧ o.ID = id)) →
      c.RolePermissionOverwrite id = none) ∧
    ((∀ o ∈ c.ChannelPermissionOverwrites,
        ¬(o.Type = .PermissionOverwriteTypeMember ∧ o.ID = id)) →
      c.MemberPermissionOverwrite id = none) := by
  constructor
  · intro h
    simp [GuildChannel.RolePermissionOverwrite, getPermissionOverwrite,
      GuildChannel.PermissionOverwrites, getPermissionOverwriteLoop_none _ id _ h]
  · intro h
    simp [GuildChannel.MemberPermissionOverwrite, getPermissionOverwrite,
      GuildChannel.PermissionOverwrites, getPermissionOverwriteLoop_none _ id _ h]

/-- When a role (member) overwrite for the id exists, the lookup returns the first
overwrite of the list whose type and id both match. -/
theorem overwrite_lookup_first_match (c : GuildChannel) (id : Snowflake)
    (before after : List PermissionOverwrite) :
    (∀ r : RolePermissionOverwrite,
      c.ChannelPermissionOverwrites = before ++ .role r :: after → r.RoleID = id →
      (∀ x ∈ before, ¬(x.Type = .PermissionOverwriteTypeRole ∧ x.ID = id)) →
      c.RolePermissionOverwrite id = some (some r)) ∧
    (∀ m : MemberPermissionOverwrite,
      c.ChannelPermissionOverwrites = before ++ .member m :: after → m.UserID = id →
      (∀ x ∈ before, ¬(x.Type = .PermissionOverwriteTypeMember ∧ x.ID = id)) →
      c.MemberPermissionOverwrite id = some (some m)) := by
  constructor
  · intro r hList hId hBefore
    have := getPermissionOverwriteLoop_first .PermissionOverwriteTypeRole id before after
      (.role r) hBefore ⟨rfl, hId⟩
    simp [GuildChannel.RolePermissionOverwrite, getPermissionOverwrite,
      GuildChannel.PermissionOverwrites, hList, this]
  · intro m hList hId hBefore
    have := getPermissionOverwriteLoop_first .PermissionOverwriteTypeMember id before after
      (.member m) hBefore ⟨rfl, hId⟩
    simp [GuildChannel.MemberPermissionOverwrite, getPermissionOverwrite,
      GuildChannel.PermissionOverwrites, hList, this]

/-! ## Further claims about `GetMemberPermissionsInChannel` -/

/-- C26, evaluated where the code departs from it: on a cached channel of guild 1
without any overwrite, for a member of guild 1 who is neither owner nor administrator,
`GetMemberPermissions` returns the public role's permissions but
`GetMemberPermissionsInChannel` panics on the lookup of the public overwrite; and when
the public role grants administrator and the member has no roles, the first returns
the administrator bit alone and the second `PermissionsAll`. -/
theorem C26_channel_without_overwrites_panics :
    (sampleChannel []).PermissionOverwrites = [] ∧
    (sampleMember [] none).GuildID = (sampleChannel []).GuildID ∧
    (sampleCaches [samplePublicRole] (sampleChannel [])).Channels.GetGuildChannel 50
      = some (sampleChannel []) ∧
    (sampleCaches [samplePublicRole] (sampleChannel [])).GetMemberPermissions sampleConsts
      (sampleMember [] none) = 1024 ||| 2048 ||| 65536 ∧
    (sampleCaches [samplePublicRole] (sampleChannel [])).GetMemberPermissionsInChannel
      sampleConsts 50 (sampleMember [] none) = none ∧
    (sampleCaches [sampleAdminPublicRole] (sampleChannel [])).GetMemberPermissions sampleConsts
      (sampleMember [] none) = 8 ∧
    (sampleCaches [sampleAdminPublicRole] (sampleChannel [])).GetMemberPermissionsInChannel
      sampleConsts 50 (sampleMember [] none) = some sampleConsts.PermissionsAll := by
  decide

/-- C27: for a channel id that is not a cached guild channel, and every member,
`GetMemberPermissionsInChannel` returns `PermissionsNone`. -/
theorem C27_uncached_channel_none (K : PermissionConsts) (c : Caches) (channelID : Snowflake)
    (m : Member) (hChannel : c.Channels.GetGuildChannel channelID = none) :
    c.GetMemberPermissionsInChannel K channelID m = some K.PermissionsNone := by
  simp [Caches.GetMemberPermissionsInChannel, hChannel]

/-- C27 at the owner of guild 1 and at a member of a guild whose public role grants
administrator, for the channel id 51 that is not cached. -/
theorem C27_uncached_channel_none_witness :
    (sampleCaches [sampleAdminPublicRole] neutralChannel).Channels.GetGuildChannel 51 = none ∧
    (sampleCaches [sampleAdminPublicRole] neutralChannel).GetMemberPermissionsInChannel
      sampleConsts 51 sampleOwner = some sampleConsts.PermissionsNone ∧
    (sampleCaches [sampleAdminPublicRole] neutralChannel).GetMemberPermissionsInChannel
      sampleConsts 51 (sampleMember [] none) = some sampleConsts.PermissionsNone :=
  ⟨by decide,
    C27_uncached_channel_none sampleConsts (sampleCaches [sampleAdminPublicRole] neutralChannel)
      51 sampleOwner (by decide),
    C27_uncached_channel_none sampleConsts (sampleCaches [sampleAdminPublicRole] neutralChannel)
      51 (sampleMember [] none) (by decide)⟩

/-! ## Further claims about the client -/

/-- C28: when `Shard(g)` returns an error, `Connect`, `Disconnect`, `RequestMembers`
and `RequestMembersWithQuery` for `g` return exactly that error and make no call on
any subsystem. -/
theorem C28_shard_failure_sends_nothing (c : clientImpl) (ctx : Context)
    (guildID channelID : Snowflake) (presence : Bool) (nonce query : String) (limit : Int)
    (userIDs : List Snowflake) (err : GoError) (hFail : (c.Shard guildID).2 = some err) :
    c.Connect ctx guildID channelID = some { err := some err, calls := [] } ∧
    c.Disconnect ctx guildID = some { err := some err, calls := [] } ∧
    c.RequestMembers ctx guildID presence nonce userIDs
      = some { err := some err, calls := [] } ∧
    c.RequestMembersWithQuery ctx guildID presence nonce query limit
      = some { err := some err, calls := [] } := by
  have h : ∀ op d, c.sendToShard ctx guildID op d = some { err := some err, calls := [] } := by
    intro op d
    unfold clientImpl.sendToShard
    cases hS : c.Shard guildID with
    | mk gateway e =>
      rw [hS] at hFail
      simp only at hFail
      subst hFail
      cases gateway <;> rfl
  exact ⟨h _ _, h _ _, h _ _, h _ _⟩

/-- C28 at a client without subsystems and at a guild the shard manager does not know. -/
theorem C28_shard_failure_sends_nothing_witness :
    (bareClient.Shard 1).2 = some .ErrNoGatewayOrShardManager ∧
    (bareClient.Connect 0 1 50 = some { err := some .ErrNoGatewayOrShardManager, calls := [] } ∧
    bareClient.Disconnect 0 1 = some { err := some .ErrNoGatewayOrShardManager, calls := [] } ∧
    bareClient.RequestMembers 0 1 true "n" [7]
      = some { err := some .ErrNoGatewayOrShardManager, calls := [] } ∧
    bareClient.RequestMembersWithQuery 0 1 true "n" "q" 5
      = some { err := some .ErrNoGatewayOrShardManager, calls := [] }) ∧
    ((shardedClient none).Shard 2).2 = some .ErrShardNotFound ∧
    (shardedClient none).Connect 0 2 50 = some { err := some .ErrShardNotFound, calls := [] } :=
  ⟨by decide,
    C28_shard_failure_sends_nothing bareClient 0 1 50 true "n" "q" 5 [7]
      .ErrNoGatewayOrShardManager (by decide),
    by decide,
    (C28_shard_failure_sends_nothing (shardedClient none) 0 2 50 true "n" "q" 5 [7]
      .ErrShardNotFound (by decide)).1⟩

/-! ## Further claims about the cache configuration -/

theorem withCacheFlagsLoop_eq_foldl (cacheFlags : List CacheFlags) (flags : CacheFlags) :
    withCacheFlagsLoop flags cacheFlags = cacheFlags.foldl (fun acc flag => acc ||| flag) flags := by
  induction cacheFlags generalizing flags with
  | nil => rfl
  | cons flag rest ih => simp only [withCacheFlagsLoop, CacheFlags.Add, List.foldl_cons, ih]

theorem Apply_append (c : CacheConfig) (xs ys : List CacheConfigOpt) :
    c.Apply (xs ++ ys) = (c.Apply xs).Apply ys := by
  induction xs generalizing c with
  | nil => rfl
  | cons opt rest ih => exact ih (opt c)

/-- C29: `Apply` applies its options from left to right: the empty list leaves the
config as it is, `Apply(xs ++ ys)` is `Apply(xs)` followed by `Apply(ys)`, and the last
option that sets a field decides its value; `Apply([WithCacheFlags(a),
WithCacheFlags(b)])` leaves `CacheFlags = b`. -/
theorem C29_apply_left_to_right (c : CacheConfig) :
    c.Apply [] = c ∧
    (∀ (opt : CacheConfigOpt) (rest : List CacheConfigOpt),
      c.Apply (opt :: rest) = (opt c).Apply rest) ∧
    (∀ xs ys : List CacheConfigOpt, c.Apply (xs ++ ys) = (c.Apply xs).Apply ys) ∧
    (∀ (xs : List CacheConfigOpt) (cacheFlags : List CacheFlags),
      (c.Apply (xs ++ [WithCacheFlags cacheFlags])).CacheFlags
        = cacheFlags.foldl (fun acc flag => acc ||| flag) 0) ∧
    (∀ (xs : List CacheConfigOpt) (policy : CachePolicy Member),
      (c.Apply (xs ++ [WithMemberCachePolicy policy])).MemberCachePolicy = policy) ∧
    (∀ (xs : List CacheConfigOpt) (policy : CachePolicy Message),
      (c.Apply (xs ++ [WithMessageCachePolicy policy])).MessageCachePolicy = policy) ∧
    (∀ a b : CacheFlags, (c.Apply [WithCacheFlags [a], WithCacheFlags [b]]).CacheFlags = b) := by
  refine ⟨rfl, fun _ _ => rfl, Apply_append c, ?_, ?_, ?_, ?_⟩
  · intro xs cacheFlags
    rw [Apply_append]
    exact withCacheFlagsLoop_eq_foldl cacheFlags 0
  · intro xs policy
    rw [Apply_append]
    rfl
  · intro xs policy
    rw [Apply_append]
    rfl
  · intro a b
    simp [CacheConfig.Apply, WithCacheFlags, withCacheFlagsLoop, CacheFlags.Add]

/-! ## Further claims about channel types -/

/-- C30: the `ChannelType` constants have the values 0, 1, 2, 3, 4, 5, 10, 11, 12 and 13
in the order of their declaration, and they are pairwise distinct. -/
theorem C30_channel_type_values :
    ChannelTypeGuildText = 0 ∧ ChannelTypeDM = 1 ∧ ChannelTypeGuildVoice = 2 ∧
    ChannelTypeGroupDM = 3 ∧ ChannelTypeGuildCategory = 4 ∧ ChannelTypeGuildNews = 5 ∧
    ChannelTypeGuildNewsThread = 10 ∧ ChannelTypeGuildPublicThread = 11 ∧
    ChannelTypeGuildPrivateThread = 12 ∧ ChannelTypeGuildStageVoice = 13 ∧
    [ChannelTypeGuildText, ChannelTypeDM, ChannelTypeGuildVoice, ChannelTypeGroupDM,
      ChannelTypeGuildCategory, ChannelTypeGuildNews, ChannelTypeGuildNewsThread,
      ChannelTypeGuildPublicThread, ChannelTypeGuildPrivateThread,
      ChannelTypeGuildStageVoice].Nodup := by
  decide

end Disgo
